import Mathlib

/-!
Verification development for the Quad1D repository's Plot3D mesh reader
(`src/Plot3DParser.cpp`, plus the older snapshot `HBTK/Plot3DParser.cpp`)
and VTK unstructured-grid writer (`VtkWriter.cpp`).

The C++ code is shallowly embedded: streams become explicit lists, member
functions become state-passing Lean functions, and `throw` becomes `Except`.
Floating-point coordinate values are never computed with by the program
(they are only moved from the input stream into blocks and buffers), so the
carrier of `double` values is modelled as `Int`; concrete inputs use
integer-valued literals.  C++ `assert` is a no-op in release builds and is
modelled as a no-op.
-/

namespace HBTK

/-- Stand-in for the C++ `double` values the program moves around.  The
program performs no arithmetic on coordinate values, so an integer carrier
is faithful for everything the claims mention. -/
abbrev Val := Int

/-! ### C standard library string helpers

`atoi`, `stoi` and `stod` are the C/C++ standard library functions used by
`parse_ascii`; they are embedded from their documented standard semantics
(skip leading whitespace, optional sign, longest digit run; `atoi` yields 0
on no digits while `stoi`/`stod` throw).  `stod` is restricted to the
integer-valued literals our `Val` carrier can hold; a fractional part is
accepted and discarded. -/

/-- Value of the leading digit run of a character list (accumulator form). -/
def digitRun : List Char → Nat → Nat
  | [], acc => acc
  | c :: cs, acc => if c.isDigit then digitRun cs (10 * acc + (c.toNat - 48)) else acc

/-- Does the character list start with a digit? -/
def startsDigit : List Char → Bool
  | [] => false
  | c :: _ => c.isDigit

/-- C `atoi` on a character list: skip whitespace, optional sign, digits;
no digits parses as 0. -/
def atoiChars : List Char → Int
  | [] => 0
  | c :: cs =>
    if c.isWhitespace then atoiChars cs
    else if c = '-' then -(Int.ofNat (digitRun cs 0))
    else if c = '+' then Int.ofNat (digitRun cs 0)
    else if c.isDigit then Int.ofNat (digitRun (c :: cs) 0)
    else 0

/-- C `atoi` on a string, as used for the ascii block-count line. -/
def atoi (s : String) : Int := atoiChars s.toList

/-- C++ `std::stoi` on a character list: like `atoi` but throws
(`.error ()`) when no digit follows the optional whitespace and sign. -/
def stoiChars : List Char → Except Unit Int
  | [] => .error ()
  | c :: cs =>
    if c.isWhitespace then stoiChars cs
    else if c = '-' then
      if startsDigit cs then .ok (-(Int.ofNat (digitRun cs 0))) else .error ()
    else if c = '+' then
      if startsDigit cs then .ok (Int.ofNat (digitRun cs 0)) else .error ()
    else if c.isDigit then .ok (Int.ofNat (digitRun (c :: cs) 0))
    else .error ()

/-- C++ `std::stoi` on a string. -/
def stoi (s : String) : Except Unit Int := stoiChars s.toList

/-- C++ `std::stod`, restricted to integer-valued literals: optional sign
and digits, with an optional fractional part that is discarded (concrete
inputs in this development only use whole-valued literals). -/
def stod (s : String) : Except Unit Val := stoiChars s.toList

/-- Separator characters for `tokenise`.

Modelled from the spec: the repository's `tokenise` helper is declared in a
header that is not part of the sources; §4.2 of the spec describes the
extent lines as "whitespace/punctuation-tokenized".  Tokens are maximal
runs of non-separator characters. -/
def isSeparator (c : Char) : Bool :=
  c.isWhitespace || c = ',' || c = ';' || c = ':' || c = '(' || c = ')'

/-- Modelled from the spec: tokeniser worker; `cur` holds the reversed
characters of the token being accumulated. -/
def tokeniseChars : List Char → List Char → List String
  | [], cur => if cur.isEmpty then [] else [String.mk cur.reverse]
  | c :: cs, cur =>
    if isSeparator c then
      if cur.isEmpty then tokeniseChars cs []
      else String.mk cur.reverse :: tokeniseChars cs []
    else tokeniseChars cs (c :: cur)

/-- Modelled from the spec: split a line into whitespace/punctuation
separated tokens (the repository's `tokenise`, whose source is not under
`src/`). -/
def tokenise (s : String) : List String := tokeniseChars s.toList []

/-! ### Structured mesh blocks

Modelled from the spec (§3): `StructuredMeshBlock2D/3D` live in headers not
present under `src/`.  A block is its extents plus a total coordinate map;
`set_extent` zero-initialises storage (C++ `std::vector<double>::resize`),
`coord`/`set_coord` read and write one tuple.  The coordinate map is total
on `Int` indices; out-of-range reads return the zero tuple, matching the
zero-initialised storage for every index the program actually touches. -/

structure StructuredMeshBlock3D where
  i_ext : Int
  j_ext : Int
  k_ext : Int
  coords : Int × Int × Int → Val × Val × Val

structure StructuredMeshBlock2D where
  i_ext : Int
  j_ext : Int
  coords : Int × Int → Val × Val

/-- Modelled from the spec: a fresh 3D block with the given extents and
zero-initialised coordinate storage. -/
def mkBlock3 (i j k : Int) : StructuredMeshBlock3D :=
  { i_ext := i, j_ext := j, k_ext := k, coords := fun _ => (0, 0, 0) }

/-- Modelled from the spec: write one coordinate tuple of a 3D block. -/
def setCoord3 (m : StructuredMeshBlock3D) (p : Int × Int × Int)
    (v : Val × Val × Val) : StructuredMeshBlock3D :=
  { m with coords := fun q => if q = p then v else m.coords q }

/-- Replace component `c` (0 = X, 1 = Y, 2 = Z) of a coordinate tuple,
embedding `coord[xyz_idx] = tmp_val` from the parser's `read_bin` lambda. -/
def updComp (c : Nat) (t : Val × Val × Val) (v : Val) : Val × Val × Val :=
  match c with
  | 0 => (v, t.2.1, t.2.2)
  | 1 => (t.1, v, t.2.2)
  | _ => (t.1, t.2.1, v)

/-! ### Consumers and per-block fan-out

A registered consumer is C++ `std::function<bool(StructuredMeshBlock3D)>`:
it receives the block BY VALUE and returns a continuation flag.  To make
the by-value semantics expressible, a consumer is modelled as returning
both its flag and its own (possibly mutated) copy of the block; the copy is
discarded by the caller, exactly as the C++ temporary dies at the end of
the call. -/

structure Consumer3 where
  run : StructuredMeshBlock3D → Bool × StructuredMeshBlock3D

structure Consumer2 where
  run : StructuredMeshBlock2D → Bool × StructuredMeshBlock2D

/-- Truncate a flag list after the first `false` (keeping it): the
declarative description of the parser's `if (!function(mesh)) break;`
fan-out loop. -/
def takeToFirstFalse : List Bool → List Bool
  | [] => []
  | b :: bs => if b then b :: takeToFirstFalse bs else [b]

/-- The 3D fan-out loop of `parse_ascii`/`parse_binary`:
`for (auto & function : m_mesh_3d_functions) if (!function(mesh)) break;`.
The log records, in order, the argument passed to each invoked consumer
and the flag it returned. -/
def runConsumers3 : List Consumer3 → StructuredMeshBlock3D →
    List (StructuredMeshBlock3D × Bool)
  | [], _ => []
  | c :: cs, mesh =>
    let r := c.run mesh
    if r.1 then (mesh, r.1) :: runConsumers3 cs mesh else [(mesh, r.1)]

/-- The 2D fan-out loop, identical in shape to the 3D one. -/
def runConsumers2 : List Consumer2 → StructuredMeshBlock2D →
    List (StructuredMeshBlock2D × Bool)
  | [], _ => []
  | c :: cs, mesh =>
    let r := c.run mesh
    if r.1 then (mesh, r.1) :: runConsumers2 cs mesh else [(mesh, r.1)]

/-! ### The Plot3D parser object and its ascii path

`Plot3DParser` holds the configuration flags and the registered consumer
lists.  `add_2D_block_function`/`add_3D_block_function` append to the
lists.  The ascii input stream is split into the line-oriented header part
(consumed with `std::getline`) and the token-oriented coordinate part
(consumed with `operator>>` into a `double`); the program always finishes
all `getline` reads before the first `>>` read, so the two parts are
modelled as separate lists.  The decimal lexing done by `operator>>` is
not re-modelled (no claim depends on it): `vals` is the sequence of values
it extracts, and a failed extraction (stream exhausted) leaves the target
variable at its initialised value 0 without throwing, as in C++11. -/

structure Plot3DParser where
  single_block : Bool
  parse_as_binary : Bool
  number_of_dimensions : Int
  m_mesh_2d_functions : List Consumer2
  m_mesh_3d_functions : List Consumer3

/-- `Plot3DParser::Plot3DParser()`: default construction. -/
def Plot3DParser.init : Plot3DParser :=
  { single_block := false, parse_as_binary := true, number_of_dimensions := -1,
    m_mesh_2d_functions := [], m_mesh_3d_functions := [] }

/-- `add_2D_block_function`: `m_mesh_2d_functions.push_back(func)`. -/
def add_2D_block_function (p : Plot3DParser) (f : Consumer2) : Plot3DParser :=
  { p with m_mesh_2d_functions := p.m_mesh_2d_functions ++ [f] }

/-- `add_3D_block_function`: `m_mesh_3d_functions.push_back(func)`. -/
def add_3D_block_function (p : Plot3DParser) (f : Consumer3) : Plot3DParser :=
  { p with m_mesh_3d_functions := p.m_mesh_3d_functions ++ [f] }

/-- `std::getline` on the modelled line stream: at end of file the target
string is left empty (and stays empty for every later call, matching the
failed stream state). -/
def getline : List String → String × List String
  | [] => ("", [])
  | l :: ls => (l, ls)

/-- One `>>` extraction of a `double`: a failed extraction (exhausted
stream) yields 0 without error. -/
def nextVal : List Val → Val × List Val
  | [] => (0, [])
  | v :: vs => (v, vs)

/-- Innermost loop of `apply_function_to_input_array`: indices of one row,
`i` running fastest. -/
def idxRow (iext : Int) (j k : Int) : List (Int × Int × Int) :=
  (List.range iext.toNat).map (fun i => ((i : Int), j, k))

/-- Middle loop of `apply_function_to_input_array`: one `k`-plane, `j`
outside `i`. -/
def idxPlane (iext jext : Int) (k : Int) : List (Int × Int × Int) :=
  (List.range jext.toNat).flatMap (fun j => idxRow iext (j : Int) k)

/-- The full index traversal of `apply_function_to_input_array`: `k`
outermost, `j` middle, `i` innermost. -/
def idxGrid (iext jext kext : Int) : List (Int × Int × Int) :=
  (List.range kext.toNat).flatMap (fun k => idxPlane iext jext (k : Int))

/-- One coordinate pass of the ascii `parse_ascii`: for every index of the
traversal in order, extract one value with `>>` and store it in component
`c` of that index's coordinate tuple (the `read_bin` lambda with
`xyz_idx = c`). -/
def readPass (c : Nat) : List (Int × Int × Int) → StructuredMeshBlock3D →
    List Val → StructuredMeshBlock3D × List Val
  | [], m, vals => (m, vals)
  | p :: ps, m, vals =>
    let r := nextVal vals
    readPass c ps (setCoord3 m p (updComp c (m.coords p) r.1)) r.2

/-- `std::stoi` applied to each token of an extent row; the first failure
propagates (it is caught by the surrounding `catch (...)`). -/
def stoiRow : List String → Except Unit (List Int)
  | [] => .ok []
  | s :: ss =>
    match stoi s with
    | .error e => .error e
    | .ok v =>
      match stoiRow ss with
      | .error e => .error e
      | .ok vs => .ok (v :: vs)

/-- The extent-reading loop of `parse_ascii`: one line per block; each
iteration does `getline`, `line_number++`, tokenises, requires at least
`dims` tokens (else `throw line_number`), and `stoi`s the first `dims`
tokens (a `stoi` failure is caught by `catch (...) { throw line_number; }`).
Returns the rows together with the remaining lines and the line counter,
plus (as a ghost field for the error-context claims) the total number of
`getline` calls made. -/
def readExtentLines (dims : Nat) : Nat → List String → Int → Nat →
    (Except Int (List (List Int) × List String × Int)) × Nat
  | 0, lines, ln, calls => (.ok ([], lines, ln), calls)
  | n + 1, lines, ln, calls =>
    let g := getline lines
    let ln1 := ln + 1
    let calls1 := calls + 1
    let toks := tokenise g.1
    if toks.length < dims then (.error ln1, calls1)
    else
      match stoiRow (toks.take dims) with
      | .error _ => (.error ln1, calls1)
      | .ok row =>
        match readExtentLines dims n g.2 ln1 calls1 with
        | (.error e, c2) => (.error e, c2)
        | (.ok (rows, rest, ln2), c2) => (.ok (row :: rows, rest, ln2), c2)

/-- Outcome of one block's consumer fan-out: the block handed over (after
2D projection where applicable) and the per-consumer invocation log. -/
inductive BlockDispatch where
  | d2 (mesh : StructuredMeshBlock2D) (log : List (StructuredMeshBlock2D × Bool))
  | d3 (mesh : StructuredMeshBlock3D) (log : List (StructuredMeshBlock3D × Bool))

/-- Narrow a populated 3D block to its 2D projection, embedding the
`mesh2d.coord({i, j}) = {coord[0], coord[1]}` loop of `parse_ascii` /
`parse_binary`: in-range entries keep X and Y of plane `k = 0`, everything
else stays at the zero-initialised storage. -/
def projectTo2D (mesh : StructuredMeshBlock3D) : StructuredMeshBlock2D :=
  { i_ext := mesh.i_ext, j_ext := mesh.j_ext,
    coords := fun p =>
      if 0 ≤ p.1 ∧ p.1 < mesh.i_ext ∧ 0 ≤ p.2 ∧ p.2 < mesh.j_ext then
        ((mesh.coords (p.1, p.2, 0)).1, (mesh.coords (p.1, p.2, 0)).2.1)
      else (0, 0) }

/-- Per-block dispatch of `parse_ascii`/`parse_binary`: 3D consumers get
the block itself, 2D consumers get its projection. -/
def dispatchBlock (p : Plot3DParser) (dims : Nat)
    (mesh : StructuredMeshBlock3D) : BlockDispatch :=
  if dims = 3 then .d3 mesh (runConsumers3 p.m_mesh_3d_functions mesh)
  else
    let m2 := projectTo2D mesh
    .d2 m2 (runConsumers2 p.m_mesh_2d_functions m2)

/-- One block of the ascii coordinate phase: extents come from the
block's extent row (`k_ext` forced to 1 in 2D), a fresh block is
allocated, and the X pass, the Y pass and (3D only) the Z pass each
traverse the full grid. -/
def parseBlockAscii (dims : Nat) (row : List Int) (vals : List Val) :
    StructuredMeshBlock3D × List Val :=
  let i_ext := row.getD 0 0
  let j_ext := row.getD 1 0
  let k_ext := if dims = 3 then row.getD 2 0 else 1
  let grid := idxGrid i_ext j_ext k_ext
  let r1 := readPass 0 grid (mkBlock3 i_ext j_ext k_ext) vals
  let r2 := readPass 1 grid r1.1 r1.2
  if dims = 3 then readPass 2 grid r2.1 r2.2 else r2

/-- The block loop of the ascii parser: populate each block in order and
dispatch it; the loop never stops early on consumer flags. -/
def blockLoopAscii (p : Plot3DParser) (dims : Nat) :
    List (List Int) → List Val → List BlockDispatch
  | [], _ => []
  | row :: rows, vals =>
    let r := parseBlockAscii dims row vals
    dispatchBlock p dims r.1 :: blockLoopAscii p dims rows r.2

/-- Ascii input: the header lines (read with `getline`) and the coordinate
values (read with `>>`). -/
structure AsciiInput where
  lines : List String
  vals : List Val

/-- Result of an ascii parse: dispatch log, outcome (`.error n` is C++
`throw line_number`), and — ghost, for the error-context claims — the
number of `getline` calls that were made. -/
structure AsciiResult where
  log : List BlockDispatch
  res : Except Int Unit
  calls : Nat

/-- `Plot3DParser::parse_ascii` (the `src/` version).  `line_number`
starts at 1 and is incremented after every `getline`.  When not
single-block, the first line is read and decoded with `atoi` (leading
non-numeric content decodes as 0).  A negative block count makes
`vect.resize(number_of_blocks)` throw `std::length_error` (the negative
`int` converts to an enormous `size_t`), which `catch (...)` turns into
`throw line_number`; a zero block count resizes to empty and the parse
runs zero blocks.  The coordinate phase cannot throw (failed `>>`
extractions yield 0 silently). -/
def parse_ascii (p : Plot3DParser) (dims : Nat) (input : AsciiInput) :
    AsciiResult :=
  let s0 : Int × List String × Int × Nat :=
    if p.single_block then (1, input.lines, 1, 0)
    else
      let g := getline input.lines
      (atoi g.1, g.2, 2, 1)
  let nblocks := s0.1
  let lines1 := s0.2.1
  let ln1 := s0.2.2.1
  let calls1 := s0.2.2.2
  if nblocks < 0 then { log := [], res := .error ln1, calls := calls1 }
  else
    match readExtentLines dims nblocks.toNat lines1 ln1 calls1 with
    | (.error e, c2) => { log := [], res := .error e, calls := c2 }
    | (.ok (rows, _, _), c2) =>
      { log := blockLoopAscii p dims rows input.vals, res := .ok (), calls := c2 }

/-! ### The older snapshot `HBTK/Plot3DParser.cpp`

The repository also carries an older snapshot of the same parser.  Its
`parse_ascii` reads every coordinate value with `getline` + `std::stod`
(one value per line, advancing `line_number`), writing through the
reference tuple returned by `mesh.coord(i, j, k)`.  Its header phase is
textually identical to the `src/` version, so `readExtentLines` is
shared.  Note the component indices of the three passes below: the X pass
writes `std::get<0>`, the Y pass `std::get<1>`, and the 3D-only third
pass writes `std::get<1>` again — that index is taken verbatim from the
source (`HBTK/Plot3DParser.cpp` line 254). -/

/-- One coordinate pass of the snapshot parser: per index, `getline`,
`line_number++`, `std::stod` (a failure is caught by
`catch (...) { throw line_number; }`), and a write to component `c`. -/
def readPassHbtk (c : Nat) : List (Int × Int × Int) → StructuredMeshBlock3D →
    List String → Int → Nat →
    Except (Int × Nat) (StructuredMeshBlock3D × List String × Int × Nat)
  | [], m, lines, ln, calls => .ok (m, lines, ln, calls)
  | p :: ps, m, lines, ln, calls =>
    let g := getline lines
    let ln1 := ln + 1
    let calls1 := calls + 1
    match stod g.1 with
    | .error _ => .error (ln1, calls1)
    | .ok v =>
      readPassHbtk c ps (setCoord3 m p (updComp c (m.coords p) v)) g.2 ln1 calls1

/-- One block of the snapshot parser's coordinate phase.  The third pass
(3D only) writes component 1, exactly as the source's `std::get<1>` does;
component 2 is never written on this path. -/
def parseBlockHbtk (dims : Nat) (row : List Int) (lines : List String)
    (ln : Int) (calls : Nat) :
    Except (Int × Nat) (StructuredMeshBlock3D × List String × Int × Nat) :=
  let i_ext := row.getD 0 0
  let j_ext := row.getD 1 0
  let k_ext := if dims = 3 then row.getD 2 0 else 1
  let grid := idxGrid i_ext j_ext k_ext
  match readPassHbtk 0 grid (mkBlock3 i_ext j_ext k_ext) lines ln calls with
  | .error e => .error e
  | .ok (m1, l1, ln1, c1) =>
    match readPassHbtk 1 grid m1 l1 ln1 c1 with
    | .error e => .error e
    | .ok (m2, l2, ln2, c2) =>
      if dims = 3 then readPassHbtk 1 grid m2 l2 ln2 c2
      else .ok (m2, l2, ln2, c2)

/-- The block loop of the snapshot parser: blocks dispatched before a
failure stay dispatched; a failure aborts the remaining blocks. -/
def blockLoopHbtk (p : Plot3DParser) (dims : Nat) :
    List (List Int) → List String → Int → Nat →
    List BlockDispatch × Except (Int × Nat) (List String × Int × Nat)
  | [], lines, ln, calls => ([], .ok (lines, ln, calls))
  | row :: rows, lines, ln, calls =>
    match parseBlockHbtk dims row lines ln calls with
    | .error e => ([], .error e)
    | .ok (mesh, l1, ln1, c1) =>
      let d := dispatchBlock p dims mesh
      let r := blockLoopHbtk p dims rows l1 ln1 c1
      (d :: r.1, r.2)

/-- `Plot3DParser::parse_ascii` of the older `HBTK/` snapshot.  The whole
input is one line stream. -/
def parse_ascii_hbtk (p : Plot3DParser) (dims : Nat) (lines : List String) :
    AsciiResult :=
  let s0 : Int × List String × Int × Nat :=
    if p.single_block then (1, lines, 1, 0)
    else
      let g := getline lines
      (atoi g.1, g.2, 2, 1)
  let nblocks := s0.1
  let lines1 := s0.2.1
  let ln1 := s0.2.2.1
  let calls1 := s0.2.2.2
  if nblocks < 0 then { log := [], res := .error ln1, calls := calls1 }
  else
    match readExtentLines dims nblocks.toNat lines1 ln1 calls1 with
    | (.error e, c2) => { log := [], res := .error e, calls := c2 }
    | (.ok (rows, rest, ln2), c2) =>
      let r := blockLoopHbtk p dims rows rest ln2 c2
      match r.2 with
      | .error ec => { log := r.1, res := .error ec.1, calls := ec.2 }
      | .ok (_, _, c3) => { log := r.1, res := .ok (), calls := c3 }

/-! ### The binary path and the record framing adapter

The binary stream is modelled at value granularity: a token is one
fixed-width integer or one fixed-width floating value as read by
`unpack_binary_to_struct` (whose header is not under `src/`; a short or
misaligned read is a fatal malformed-stream condition per spec §4.1/§7).
The `FortranSequentialInputStream` record framing adapter is likewise not
under `src/` and is modelled from spec §4.1: `record_open` reads the
leading length and stores it, `record_close` reads the trailing length and
fails unless it equals the stored one. -/

inductive BinTok where
  | i (n : Int)
  | d (v : Val)
deriving DecidableEq

/-- Trace events of a binary parse: record open/close checkpoints and the
raw value reads between them. -/
inductive BinEv where
  | recOpen (n : Int)
  | recClose (n : Int)
  | rdInt (n : Int)
  | rdVal (v : Val)
deriving DecidableEq

/-- Binary-path failures: `.code n` is a C++ `throw n`; `.stream` is a
short read, a misaligned read or a record length mismatch. -/
inductive PErr where
  | code (n : Int)
  | stream
deriving DecidableEq

/-- Modelled from the spec: `FortranSequentialInputStream::record_open`
reads a fixed-width integer giving the payload byte count that follows and
returns it as the expected record length; a short read is fatal. -/
def record_open : List BinTok → Except PErr (Int × List BinTok)
  | .i n :: rest => .ok (n, rest)
  | _ => .error .stream

/-- Modelled from the spec: `FortranSequentialInputStream::record_close`
reads the trailing fixed-width integer and fails if it does not equal the
value read at `record_open`. -/
def record_close (expected : Int) : List BinTok → Except PErr (List BinTok)
  | .i n :: rest => if n = expected then .ok rest else .error .stream
  | _ => .error .stream

/-- `unpack_binary_to_struct` into an `int` field. -/
def readIntB : List BinTok → Except PErr (Int × List BinTok)
  | .i n :: rest => .ok (n, rest)
  | _ => .error .stream

/-- `unpack_binary_to_struct` into a `double` field. -/
def readValB : List BinTok → Except PErr (Val × List BinTok)
  | .d v :: rest => .ok (v, rest)
  | _ => .error .stream

/-- The inner extent loop of `parse_binary`: the `dims` integers of one
block's extent row, dimension index fastest. -/
def readRowB : Nat → List BinTok → Except PErr (List Int × List BinTok)
  | 0, toks => .ok ([], toks)
  | m + 1, toks =>
    match readIntB toks with
    | .error e => .error e
    | .ok (v, t1) =>
      match readRowB m t1 with
      | .error e => .error e
      | .ok (vs, t2) => .ok (v :: vs, t2)

/-- The outer extent loop of `parse_binary`: one extent row per block. -/
def readRowsB (dims : Nat) : Nat → List BinTok →
    Except PErr (List (List Int) × List BinTok)
  | 0, toks => .ok ([], toks)
  | n + 1, toks =>
    match readRowB dims toks with
    | .error e => .error e
    | .ok (row, t1) =>
      match readRowsB dims n t1 with
      | .error e => .error e
      | .ok (rows, t2) => .ok (row :: rows, t2)

/-- One coordinate pass of `parse_binary` over the grid traversal,
returning also the list of values read (for the event trace). -/
def readPassB (c : Nat) : List (Int × Int × Int) → StructuredMeshBlock3D →
    List BinTok →
    Except PErr (StructuredMeshBlock3D × List BinTok × List Val)
  | [], m, toks => .ok (m, toks, [])
  | p :: ps, m, toks =>
    match readValB toks with
    | .error e => .error e
    | .ok (v, t1) =>
      match readPassB c ps (setCoord3 m p (updComp c (m.coords p) v)) t1 with
      | .error e => .error e
      | .ok (m2, t2, vs) => .ok (m2, t2, v :: vs)

/-- One block's coordinate payload in `parse_binary`: the X pass, the Y
pass and (3D only) the Z pass, all inside the caller's record frame. -/
def parseBlockB (dims : Nat) (row : List Int) (toks : List BinTok) :
    Except PErr (StructuredMeshBlock3D × List BinTok × List Val) :=
  let i_ext := row.getD 0 0
  let j_ext := row.getD 1 0
  let k_ext := if dims = 3 then row.getD 2 0 else 1
  let grid := idxGrid i_ext j_ext k_ext
  match readPassB 0 grid (mkBlock3 i_ext j_ext k_ext) toks with
  | .error e => .error e
  | .ok (m1, t1, v1) =>
    match readPassB 1 grid m1 t1 with
    | .error e => .error e
    | .ok (m2, t2, v2) =>
      if dims = 3 then
        match readPassB 2 grid m2 t2 with
        | .error e => .error e
        | .ok (m3, t3, v3) => .ok (m3, t3, v1 ++ v2 ++ v3)
      else .ok (m2, t2, v1 ++ v2)

/-- The block loop of `parse_binary`: per block, `record_open`, the whole
coordinate payload, the consumer dispatch, then `record_close`.  Returns
the dispatch log, the event trace and the remaining stream. -/
def blockLoopB (p : Plot3DParser) (dims : Nat) :
    List (List Int) → List BinTok →
    List BlockDispatch × List BinEv × Except PErr (List BinTok)
  | [], toks => ([], [], .ok toks)
  | row :: rows, toks =>
    match record_open toks with
    | .error e => ([], [], .error e)
    | .ok (len, t1) =>
      match parseBlockB dims row t1 with
      | .error e => ([], [BinEv.recOpen len], .error e)
      | .ok (mesh, t2, vs) =>
        let d := dispatchBlock p dims mesh
        match record_close len t2 with
        | .error e => ([d], BinEv.recOpen len :: vs.map BinEv.rdVal, .error e)
        | .ok t3 =>
          let r := blockLoopB p dims rows t3
          (d :: r.1,
            (BinEv.recOpen len :: vs.map BinEv.rdVal ++ [BinEv.recClose len])
              ++ r.2.1,
            r.2.2)

/-- Result of a binary parse: event trace, dispatch log and outcome. -/
structure BinResult where
  trace : List BinEv
  log : List BlockDispatch
  res : Except PErr Unit

/-- `Plot3DParser::parse_binary`.  The framed block count (omitted when
single-block) is validated with `if (number_of_blocks < 1) throw -1;`
after its record is closed; the whole extents table sits in one record;
each block's payload sits in one record.  Only the block loop is inside
the `try`, whose `catch (...)` rethrows `1`. -/
def parse_binary (p : Plot3DParser) (dims : Nat) (toks : List BinTok) :
    BinResult :=
  let step1 : Except PErr (Int × List BinTok × List BinEv) :=
    if p.single_block then .ok (1, toks, [])
    else
      match record_open toks with
      | .error e => .error e
      | .ok (len, t1) =>
        match readIntB t1 with
        | .error e => .error e
        | .ok (nb, t2) =>
          match record_close len t2 with
          | .error e => .error e
          | .ok t3 =>
            if nb < 1 then .error (.code (-1))
            else .ok (nb, t3, [BinEv.recOpen len, BinEv.rdInt nb, BinEv.recClose len])
  match step1 with
  | .error e => { trace := [], log := [], res := .error e }
  | .ok (nb, t3, ev1) =>
    match record_open t3 with
    | .error e => { trace := ev1, log := [], res := .error e }
    | .ok (len2, t4) =>
      match readRowsB dims nb.toNat t4 with
      | .error e => { trace := ev1 ++ [BinEv.recOpen len2], log := [], res := .error e }
      | .ok (rows, t5) =>
        match record_close len2 t5 with
        | .error e =>
          { trace := ev1 ++ (BinEv.recOpen len2 :: rows.flatten.map BinEv.rdInt),
            log := [], res := .error e }
        | .ok t6 =>
          let ev2 := BinEv.recOpen len2 :: rows.flatten.map BinEv.rdInt
            ++ [BinEv.recClose len2]
          let r := blockLoopB p dims rows t6
          match r.2.2 with
          | .error _ =>
            { trace := ev1 ++ ev2 ++ r.2.1, log := r.1, res := .error (.code 1) }
          | .ok _ =>
            { trace := ev1 ++ ev2 ++ r.2.1, log := r.1, res := .ok () }

/-! ### The VTK writer (`VtkWriter.cpp`)

Output is modelled as a list of events: the XML prologue, open and close
tags (with attributes), and raw payload bytes.  The XML tag writer is an
external collaborator (spec §2); it is modelled with the tag stack needed
to name the tag a `close_tag` call closes.  Bytes are `Nat` values below
256.  The base64 codec is external (used, not re-specified); a standard
RFC 4648 encoder stands in for it.  The 8-byte little-endian bit pattern
of a `double` is abstracted as the little-endian encoding of the
integer-valued model value — only buffer lengths and concatenation matter
to the claims. -/

inductive XEv where
  | header (version enc : String)
  | tagOpen (name : String) (attrs : List (String × String))
  | tagClose (name : String)
  | byte (b : Nat)
deriving DecidableEq

/-- Modelled from the spec: the external XML tag writer, reduced to the
open-tag stack needed to name closed tags. -/
structure XmlWriter where
  stack : List String

/-- Modelled from the spec: emit an open tag with attributes. -/
def XmlWriter.open_tag (w : XmlWriter) (name : String)
    (attrs : List (String × String)) : XmlWriter × List XEv :=
  ({ stack := name :: w.stack }, [XEv.tagOpen name attrs])

/-- Modelled from the spec: close the innermost open tag (an unbalanced
close emits an anonymous close event). -/
def XmlWriter.close_tag (w : XmlWriter) : XmlWriter × List XEv :=
  match w.stack with
  | [] => (w, [XEv.tagClose ""])
  | n :: rest => ({ stack := rest }, [XEv.tagClose n])

/-- RFC 4648 base64 alphabet (stand-in for the external `encode_base64`). -/
def b64alphabet : List Char :=
  "ABCDEFGHIJKLMNOPQRSTUVWXYZabcdefghijklmnopqrstuvwxyz0123456789+/".toList

/-- One base64 output character (as a byte); 61 is the pad byte. -/
def b64char (n : Nat) : Nat := (b64alphabet.getD n 'A').toNat

/-- Standard base64 encoding of a byte list (stand-in for the external
`HBTK::encode_base64`). -/
def encode_base64 : List Nat → List Nat
  | [] => []
  | [a] => [b64char (a / 4), b64char (a % 4 * 16), 61, 61]
  | [a, b] => [b64char (a / 4), b64char (a % 4 * 16 + b / 16), b64char (b % 16 * 4), 61]
  | a :: b :: c :: rest =>
    b64char (a / 4) :: b64char (a % 4 * 16 + b / 16) ::
      b64char (b % 16 * 4 + c / 64) :: b64char (c % 64) :: encode_base64 rest

/-- Little-endian 8-byte encoding of a natural number (the `uint64_t`
length header written at `&buffer[0]`). -/
def bytesLE8 (n : Nat) : List Nat :=
  [n % 256, n / 256 % 256, n / 65536 % 256, n / 16777216 % 256,
   n / 4294967296 % 256, n / 1099511627776 % 256,
   n / 281474976710656 % 256, n / 72057594037927936 % 256]

/-- The 8 payload bytes of one value (the `double` bit pattern / `int64_t`
little-endian bytes, abstracted over the integer-valued model). -/
def valBytes (v : Val) : List Nat := bytesLE8 ((v % (2 ^ 64 : Int)).toNat)

/-- Bytes of a string (ascii rendering). -/
def strBytes (s : String) : List Nat := s.toList.map Char.toNat

/-- Ascii rendering of one scalar: decimal text then a newline
(`setprecision` formatting abstracted over the integer-valued model). -/
def asciiScalarBytes (v : Val) : List Nat := strBytes (toString v) ++ [10]

/-- Ascii rendering of one 3-vector: three space-terminated decimal texts
then a newline. -/
def asciiVecBytes (t : Val × Val × Val) : List Nat :=
  strBytes (toString t.1) ++ [32] ++ strBytes (toString t.2.1) ++ [32]
    ++ strBytes (toString t.2.2) ++ [32, 10]

inductive VtkFileType where
  | NoneType
  | UnstructuredGrid
deriving DecidableEq

structure VtkWriter where
  m_written_xml_header : Bool
  m_file_type : VtkFileType
  ascii : Bool
  appended : Bool
  write_precision : Nat
  m_appended_data : List (List Nat)
  m_xml_writer : XmlWriter

/-- `VtkWriter::VtkWriter()`. -/
def VtkWriter.init : VtkWriter :=
  { m_written_xml_header := false, m_file_type := .NoneType, ascii := false,
    appended := true, write_precision := 6, m_appended_data := [],
    m_xml_writer := { stack := [] } }

/-- `VtkWriter::appended_data_bytelength`: the summed sizes of the buffers
accumulated so far. -/
def appended_data_bytelength (w : VtkWriter) : Nat :=
  (w.m_appended_data.map List.length).sum

/-- `VtkWriter::vtk_data_array_format_options`.  In the appended+ascii
combination the source executes a bare `throw;` with no active exception,
which calls `std::terminate` — fatal either way; modelled as an error. -/
def vtk_data_array_format_options (w : VtkWriter) :
    Except Unit (List (String × String)) :=
  if w.appended then
    if w.ascii then .error ()
    else .ok [("format", "appended"),
      ("Offset", toString (appended_data_bytelength w))]
  else if w.ascii then .ok [("format", "ascii")]
  else .ok [("format", "binary")]

/-- `vtk_data_array_generate_buffer(const std::vector<double>&)`: ascii
renders one value per line; binary packs an 8-byte payload-length header
(`sizeof(double) * size`) followed by 8 bytes per value and base64-encodes
the whole buffer.  Under appended encoding the resulting buffer is pushed
onto `m_appended_data`. -/
def vtk_data_array_generate_buffer_scalars (w : VtkWriter)
    (scalars : List Val) : List Nat × VtkWriter :=
  let buffer :=
    if w.ascii then (scalars.map asciiScalarBytes).flatten
    else encode_base64 (bytesLE8 (8 * scalars.length)
      ++ (scalars.map valBytes).flatten)
  if w.appended then
    (buffer, { w with m_appended_data := w.m_appended_data ++ [buffer] })
  else (buffer, w)

/-- `vtk_data_array_generate_buffer(const std::vector<int>&)`: identical
shape; each `int` is widened to `int64_t` (8 bytes), and the length header
is `sizeof(double) * size`, numerically the same 8·n. -/
def vtk_data_array_generate_buffer_ints (w : VtkWriter)
    (integers : List Int) : List Nat × VtkWriter :=
  let buffer :=
    if w.ascii then (integers.map asciiScalarBytes).flatten
    else encode_base64 (bytesLE8 (8 * integers.length)
      ++ (integers.map valBytes).flatten)
  if w.appended then
    (buffer, { w with m_appended_data := w.m_appended_data ++ [buffer] })
  else (buffer, w)

/-- `vtk_data_array_generate_buffer(const std::vector<CartesianVector3D>&)`:
three values per element, length header `sizeof(double) * size * 3`. -/
def vtk_data_array_generate_buffer_vectors (w : VtkWriter)
    (vects : List (Val × Val × Val)) : List Nat × VtkWriter :=
  let buffer :=
    if w.ascii then (vects.map asciiVecBytes).flatten
    else encode_base64 (bytesLE8 (8 * (3 * vects.length))
      ++ (vects.map (fun t => valBytes t.1 ++ valBytes t.2.1 ++ valBytes t.2.2)).flatten)
  if w.appended then
    (buffer, { w with m_appended_data := w.m_appended_data ++ [buffer] })
  else (buffer, w)

/-- `vtk_data_array_generate_buffer(const std::vector<CartesianPoint3D>&)`:
textually parallel to the vector overload. -/
def vtk_data_array_generate_buffer_points (w : VtkWriter)
    (pnts : List (Val × Val × Val)) : List Nat × VtkWriter :=
  let buffer :=
    if w.ascii then (pnts.map asciiVecBytes).flatten
    else encode_base64 (bytesLE8 (8 * (3 * pnts.length))
      ++ (pnts.map (fun t => valBytes t.1 ++ valBytes t.2.1 ++ valBytes t.2.2)).flatten)
  if w.appended then
    (buffer, { w with m_appended_data := w.m_appended_data ++ [buffer] })
  else (buffer, w)

/-- `vtk_data_array(ostream, name, const std::vector<double>&)`: the
format options are computed first (this is where appended+ascii is
fatal), the `DataArray` tag is opened with the type/name/component
attributes followed by the format attributes, the buffer is generated
(and, if appended, submitted), inline data is written only when not
appended, and the tag is closed. -/
def vtk_data_array_scalars (w : VtkWriter) (name : String)
    (scalars : List Val) : List XEv × Except Unit VtkWriter :=
  match vtk_data_array_format_options w with
  | .error e => ([], .error e)
  | .ok fmt =>
    let params := [("type", "Float64"), ("Name", name),
      ("NumberOfComponents", "1")] ++ fmt
    let r1 := w.m_xml_writer.open_tag "DataArray" params
    let w1 := { w with m_xml_writer := r1.1 }
    let r2 := vtk_data_array_generate_buffer_scalars w1 scalars
    let w2 := r2.2
    let dataEvs := if w2.appended then [] else r2.1.map XEv.byte
    let r3 := w2.m_xml_writer.close_tag
    (r1.2 ++ dataEvs ++ r3.2, .ok { w2 with m_xml_writer := r3.1 })

/-- `vtk_data_array(ostream, name, const std::vector<int>&)`. -/
def vtk_data_array_ints (w : VtkWriter) (name : String)
    (ints : List Int) : List XEv × Except Unit VtkWriter :=
  match vtk_data_array_format_options w with
  | .error e => ([], .error e)
  | .ok fmt =>
    let params := [("type", "Int64"), ("Name", name),
      ("NumberOfComponents", "1")] ++ fmt
    let r1 := w.m_xml_writer.open_tag "DataArray" params
    let w1 := { w with m_xml_writer := r1.1 }
    let r2 := vtk_data_array_generate_buffer_ints w1 ints
    let w2 := r2.2
    let dataEvs := if w2.appended then [] else r2.1.map XEv.byte
    let r3 := w2.m_xml_writer.close_tag
    (r1.2 ++ dataEvs ++ r3.2, .ok { w2 with m_xml_writer := r3.1 })

/-- `vtk_data_array(ostream, name, const std::vector<CartesianVector3D>&)`. -/
def vtk_data_array_vectors (w : VtkWriter) (name : String)
    (vects : List (Val × Val × Val)) : List XEv × Except Unit VtkWriter :=
  match vtk_data_array_format_options w with
  | .error e => ([], .error e)
  | .ok fmt =>
    let params := [("type", "Float64"), ("Name", name),
      ("NumberOfComponents", "3")] ++ fmt
    let r1 := w.m_xml_writer.open_tag "DataArray" params
    let w1 := { w with m_xml_writer := r1.1 }
    let r2 := vtk_data_array_generate_buffer_vectors w1 vects
    let w2 := r2.2
    let dataEvs := if w2.appended then [] else r2.1.map XEv.byte
    let r3 := w2.m_xml_writer.close_tag
    (r1.2 ++ dataEvs ++ r3.2, .ok { w2 with m_xml_writer := r3.1 })

/-- `vtk_data_array(ostream, name, const std::vector<CartesianPoint3D>&)`. -/
def vtk_data_array_points (w : VtkWriter) (name : String)
    (pnts : List (Val × Val × Val)) : List XEv × Except Unit VtkWriter :=
  match vtk_data_array_format_options w with
  | .error e => ([], .error e)
  | .ok fmt =>
    let params := [("type", "Float64"), ("Name", name),
      ("NumberOfComponents", "3")] ++ fmt
    let r1 := w.m_xml_writer.open_tag "DataArray" params
    let w1 := { w with m_xml_writer := r1.1 }
    let r2 := vtk_data_array_generate_buffer_points w1 pnts
    let w2 := r2.2
    let dataEvs := if w2.appended then [] else r2.1.map XEv.byte
    let r3 := w2.m_xml_writer.close_tag
    (r1.2 ++ dataEvs ++ r3.2, .ok { w2 with m_xml_writer := r3.1 })

/-- One cell of an unstructured mesh: a VTK cell type tag and the node
indices into the point list. -/
structure VtkCell where
  cell_type : Int
  node_ids : List Int

structure VtkUnstructuredMeshHolder where
  points : List (Val × Val × Val)
  cells : List VtkCell

structure VtkUnstructuredDataset where
  mesh : VtkUnstructuredMeshHolder
  integer_point_data : List (String × List Int)
  scalar_point_data : List (String × List Val)
  vector_point_data : List (String × List (Val × Val × Val))
  integer_cell_data : List (String × List Int)
  scalar_cell_data : List (String × List Val)
  vector_cell_data : List (String × List (Val × Val × Val))

/-- The first scratch loop of `vtk_unstructured_cells`: the cell types. -/
def typesScratch (cells : List VtkCell) : List Int :=
  cells.map (fun c => c.cell_type)

/-- The second scratch loop of `vtk_unstructured_cells`, with the running
`offset_counter`: entry `i` holds the counter after adding cell `i`'s
node count. -/
def offsetsScratchFrom (counter : Int) : List VtkCell → List Int
  | [] => []
  | c :: cs =>
    (counter + (c.node_ids.length : Int))
      :: offsetsScratchFrom (counter + (c.node_ids.length : Int)) cs

/-- The emitted `offsets` array (`offset_counter` starts at 0). -/
def offsetsScratch (cells : List VtkCell) : List Int :=
  offsetsScratchFrom 0 cells

/-- The third scratch loop of `vtk_unstructured_cells`: every cell's node
indices appended in order. -/
def connectivityScratch : List VtkCell → List Int
  | [] => []
  | c :: cs => c.node_ids ++ connectivityScratch cs

/-- `VtkWriter::vtk_unstructured_cells`: a `Cells` block holding the
`types`, `offsets` and `connectivity` integer arrays. -/
def vtk_unstructured_cells (w : VtkWriter) (mesh : VtkUnstructuredMeshHolder) :
    List XEv × Except Unit VtkWriter :=
  let r0 := w.m_xml_writer.open_tag "Cells" []
  let w0 := { w with m_xml_writer := r0.1 }
  match vtk_data_array_ints w0 "types" (typesScratch mesh.cells) with
  | (evs, .error e) => (r0.2 ++ evs, .error e)
  | (e1, .ok w1) =>
    match vtk_data_array_ints w1 "offsets" (offsetsScratch mesh.cells) with
    | (evs, .error e) => (r0.2 ++ e1 ++ evs, .error e)
    | (e2, .ok w2) =>
      match vtk_data_array_ints w2 "connectivity" (connectivityScratch mesh.cells) with
      | (evs, .error e) => (r0.2 ++ e1 ++ e2 ++ evs, .error e)
      | (e3, .ok w3) =>
        let r4 := w3.m_xml_writer.close_tag
        (r0.2 ++ e1 ++ e2 ++ e3 ++ r4.2, .ok { w3 with m_xml_writer := r4.1 })

/-- `VtkWriter::vtk_unstructured_mesh`: the `Points` block (one
3-component array) followed by the cells block; no closing statement for
the piece here. -/
def vtk_unstructured_mesh (w : VtkWriter) (mesh : VtkUnstructuredMeshHolder) :
    List XEv × Except Unit VtkWriter :=
  let r0 := w.m_xml_writer.open_tag "Points" []
  let w0 := { w with m_xml_writer := r0.1 }
  match vtk_data_array_points w0 "Points" mesh.points with
  | (evs, .error e) => (r0.2 ++ evs, .error e)
  | (e1, .ok w1) =>
    let r2 := w1.m_xml_writer.close_tag
    let w2 := { w1 with m_xml_writer := r2.1 }
    match vtk_unstructured_cells w2 mesh with
    | (evs, .error e) => (r0.2 ++ e1 ++ r2.2 ++ evs, .error e)
    | (e3, .ok w3) => (r0.2 ++ e1 ++ r2.2 ++ e3, .ok w3)

/-- The integer-array loop shared by the point-data and cell-data blocks. -/
def writeNamedInts (w : VtkWriter) :
    List (String × List Int) → List XEv × Except Unit VtkWriter
  | [] => ([], .ok w)
  | (n, arr) :: rest =>
    match vtk_data_array_ints w n arr with
    | (evs, .error e) => (evs, .error e)
    | (evs, .ok w1) =>
      let r := writeNamedInts w1 rest
      (evs ++ r.1, r.2)

/-- The scalar-array loop shared by the point-data and cell-data blocks. -/
def writeNamedScalars (w : VtkWriter) :
    List (String × List Val) → List XEv × Except Unit VtkWriter
  | [] => ([], .ok w)
  | (n, arr) :: rest =>
    match vtk_data_array_scalars w n arr with
    | (evs, .error e) => (evs, .error e)
    | (evs, .ok w1) =>
      let r := writeNamedScalars w1 rest
      (evs ++ r.1, r.2)

/-- The vector-array loop shared by the point-data and cell-data blocks. -/
def writeNamedVectors (w : VtkWriter) :
    List (String × List (Val × Val × Val)) → List XEv × Except Unit VtkWriter
  | [] => ([], .ok w)
  | (n, arr) :: rest =>
    match vtk_data_array_vectors w n arr with
    | (evs, .error e) => (evs, .error e)
    | (evs, .ok w1) =>
      let r := writeNamedVectors w1 rest
      (evs ++ r.1, r.2)

/-- `VtkWriter::vtk_unstructured_point_data`: integer, then scalar, then
vector arrays, in that fixed order. -/
def vtk_unstructured_point_data (w : VtkWriter)
    (data : VtkUnstructuredDataset) : List XEv × Except Unit VtkWriter :=
  let r0 := w.m_xml_writer.open_tag "PointData" []
  let w0 := { w with m_xml_writer := r0.1 }
  match writeNamedInts w0 data.integer_point_data with
  | (evs, .error e) => (r0.2 ++ evs, .error e)
  | (e1, .ok w1) =>
    match writeNamedScalars w1 data.scalar_point_data with
    | (evs, .error e) => (r0.2 ++ e1 ++ evs, .error e)
    | (e2, .ok w2) =>
      match writeNamedVectors w2 data.vector_point_data with
      | (evs, .error e) => (r0.2 ++ e1 ++ e2 ++ evs, .error e)
      | (e3, .ok w3) =>
        let r4 := w3.m_xml_writer.close_tag
        (r0.2 ++ e1 ++ e2 ++ e3 ++ r4.2, .ok { w3 with m_xml_writer := r4.1 })

/-- `VtkWriter::vtk_unstructured_cell_data`: same category order as the
point-data block. -/
def vtk_unstructured_cell_data (w : VtkWriter)
    (data : VtkUnstructuredDataset) : List XEv × Except Unit VtkWriter :=
  let r0 := w.m_xml_writer.open_tag "CellData" []
  let w0 := { w with m_xml_writer := r0.1 }
  match writeNamedInts w0 data.integer_cell_data with
  | (evs, .error e) => (r0.2 ++ evs, .error e)
  | (e1, .ok w1) =>
    match writeNamedScalars w1 data.scalar_cell_data with
    | (evs, .error e) => (r0.2 ++ e1 ++ evs, .error e)
    | (e2, .ok w2) =>
      match writeNamedVectors w2 data.vector_cell_data with
      | (evs, .error e) => (r0.2 ++ e1 ++ e2 ++ evs, .error e)
      | (e3, .ok w3) =>
        let r4 := w3.m_xml_writer.close_tag
        (r0.2 ++ e1 ++ e2 ++ e3 ++ r4.2, .ok { w3 with m_xml_writer := r4.1 })

/-- `VtkWriter::vtk_unstructured_piece`: the `Piece` open tag sized by
point and cell counts. -/
def vtk_unstructured_piece (w : VtkWriter) (num_points num_cells : Nat) :
    List XEv × VtkWriter :=
  let r := w.m_xml_writer.open_tag "Piece"
    [("NumberOfPoints", toString num_points),
     ("NumberOfCells", toString num_cells)]
  (r.2, { w with m_xml_writer := r.1 })

/-- `VtkWriter::write_piece`: fatal unless the opened type is
`UnstructuredGrid` (the leading `assert`s are release no-ops); then the
piece tag, the mesh, the point data, the cell data, and the closing of
the piece tag. -/
def write_piece (w : VtkWriter) (data : VtkUnstructuredDataset) :
    List XEv × Except Unit VtkWriter :=
  if w.m_file_type = VtkFileType.UnstructuredGrid then
    let r0 := vtk_unstructured_piece w data.mesh.points.length data.mesh.cells.length
    match vtk_unstructured_mesh r0.2 data.mesh with
    | (evs, .error e) => (r0.1 ++ evs, .error e)
    | (e1, .ok w1) =>
      match vtk_unstructured_point_data w1 data with
      | (evs, .error e) => (r0.1 ++ e1 ++ evs, .error e)
      | (e2, .ok w2) =>
        match vtk_unstructured_cell_data w2 data with
        | (evs, .error e) => (r0.1 ++ e1 ++ e2 ++ evs, .error e)
        | (e3, .ok w3) =>
          let r4 := w3.m_xml_writer.close_tag
          (r0.1 ++ e1 ++ e2 ++ e3 ++ r4.2, .ok { w3 with m_xml_writer := r4.1 })
  else ([], .error ())

/-- `VtkWriter::close_file`: close the grid container; if any appended
buffers were accumulated, emit the `AppendedData` element holding the
leading underscore and the literal concatenation of all buffers in
submission order; close the document tag. -/
def close_file (w : VtkWriter) : List XEv × VtkWriter :=
  let r0 := w.m_xml_writer.close_tag
  let w0 := { w with m_xml_writer := r0.1 }
  let mid : List XEv × VtkWriter :=
    if w0.m_appended_data.length ≠ 0 then
      let enc := if w0.ascii then "ascii" else "base64"
      let r1 := w0.m_xml_writer.open_tag "AppendedData" [("encoding", enc)]
      let w1 := { w0 with m_xml_writer := r1.1 }
      let payload := XEv.byte 95 :: (w1.m_appended_data.flatten.map XEv.byte)
      let r2 := w1.m_xml_writer.close_tag
      (r1.2 ++ payload ++ r2.2, { w1 with m_xml_writer := r2.1 })
    else ([], w0)
  let r3 := mid.2.m_xml_writer.close_tag
  (r0.2 ++ mid.1 ++ r3.2, { mid.2 with m_xml_writer := r3.1 })

/-- `VtkWriter::xml_header`: the document prologue. -/
def xml_header (_w : VtkWriter) : List XEv := [XEv.header "1.0" "UTF-8"]

/-- `VtkWriter::vtk_unstructured_file_header`: the `VTKFile` root tag and
the `UnstructuredGrid` container tag. -/
def vtk_unstructured_file_header (w : VtkWriter) : List XEv × VtkWriter :=
  let r1 := w.m_xml_writer.open_tag "VTKFile"
    [("type", "UnstructuredGrid"), ("version", "1.0"),
     ("byte_order", "LittleEndian"), ("header_type", "UInt64")]
  let w1 := { w with m_xml_writer := r1.1 }
  let r2 := w1.m_xml_writer.open_tag "UnstructuredGrid" []
  (r1.2 ++ r2.2, { w1 with m_xml_writer := r2.1 })

/-- `VtkWriter::open_file`: only `UnstructuredGrid` is accepted; anything
else is a fatal configuration error. -/
def open_file (w : VtkWriter) (ftype : VtkFileType) :
    List XEv × Except Unit VtkWriter :=
  let hev := if w.m_written_xml_header then [] else xml_header w
  match ftype with
  | .UnstructuredGrid =>
    let r := vtk_unstructured_file_header w
    (hev ++ r.1, .ok { r.2 with m_file_type := ftype })
  | .NoneType => (hev, .error ())

/-! ### Specification-side helper definitions

These definitions restate parts of the behaviour declaratively so the
theorems can compare the embedded code against them. -/

/-- The meshes populated by the ascii coordinate phase, one per extent
row, each picking up where the previous one left the value stream. -/
def blocksOfAscii (dims : Nat) : List (List Int) → List Val →
    List StructuredMeshBlock3D
  | [], _ => []
  | row :: rows, vals =>
    let r := parseBlockAscii dims row vals
    r.1 :: blocksOfAscii dims rows r.2

/-- First dispatched 3D block's coordinate at the origin (used to observe
a concrete parse result; the sentinel is returned when the log does not
start with a 3D dispatch). -/
def firstCoord3 (r : AsciiResult) : Val × Val × Val :=
  match r.log with
  | .d3 m _ :: _ => m.coords (0, 0, 0)
  | _ => (99, 99, 99)

/-- Per-cell node counts of a cell list (the quantity the `offsets` and
`connectivity` arrays are specified against). -/
def nodeCounts (cells : List VtkCell) : List Nat :=
  cells.map (fun c => c.node_ids.length)

/-- The number of coordinate values making up one block's entire binary
payload: two (2D) or three (3D) full grid traversals of the grid sized by
the block's extent row, `k_ext` forced to 1 in 2D. -/
def blockPayloadLength (dims : Nat) (row : List Int) : Nat :=
  (if dims = 3 then 3 else 2)
    * (idxGrid (row.getD 0 0) (row.getD 1 0)
        (if dims = 3 then row.getD 2 0 else 1)).length

/-- Fixture: assemble a parser configuration. -/
def mkParser (sb : Bool) (dims : Int) (cs2 : List Consumer2)
    (cs3 : List Consumer3) : Plot3DParser :=
  { single_block := sb, parse_as_binary := false, number_of_dimensions := dims,
    m_mesh_2d_functions := cs2, m_mesh_3d_functions := cs3 }

/-- Fixture: a 3D consumer that keeps its copy unchanged and continues. -/
def keepConsumer3 : Consumer3 := { run := fun b => (true, b) }

/-- Fixture: a 2D consumer that keeps its copy unchanged and continues. -/
def keepConsumer2 : Consumer2 := { run := fun b => (true, b) }

/-- Fixture: a dataset with no points, cells or field arrays. -/
def emptyDataset : VtkUnstructuredDataset :=
  { mesh := { points := [], cells := [] }
    integer_point_data := []
    scalar_point_data := []
    vector_point_data := []
    integer_cell_data := []
    scalar_cell_data := []
    vector_cell_data := [] }

/-- Fixture: a writer in appended (binary) mode with two buffers of
lengths 3 and 2 already submitted. -/
def appendedWriterFx : VtkWriter :=
  { VtkWriter.init with
    appended := true
    ascii := false
    m_appended_data := [[1, 2, 3], [4, 5]] }

/-! ## Theorems -/

/-! ### Shared lemmas about the consumer fan-out and the block loops -/

/-- Shared fan-out law: every invoked consumer receives exactly the parsed
block, and the invocation log is determined by the flag components alone
(the mutated copies returned by earlier consumers are discarded). -/
theorem runConsumers3_spec (cs : List Consumer3) (b : StructuredMeshBlock3D) :
    runConsumers3 cs b =
      (takeToFirstFalse (cs.map fun c => (c.run b).1)).map (fun fl => (b, fl)) := by
  induction cs with
  | nil => rfl
  | cons c cs ih =>
    simp only [runConsumers3, List.map_cons, takeToFirstFalse]
    by_cases h : (c.run b).1
    · simp [h, ih]
    · simp [h]

/-- Shared fan-out law for the 2D loop. -/
theorem runConsumers2_spec (cs : List Consumer2) (b : StructuredMeshBlock2D) :
    runConsumers2 cs b =
      (takeToFirstFalse (cs.map fun c => (c.run b).1)).map (fun fl => (b, fl)) := by
  induction cs with
  | nil => rfl
  | cons c cs ih =>
    simp only [runConsumers2, List.map_cons, takeToFirstFalse]
    by_cases h : (c.run b).1
    · simp [h, ih]
    · simp [h]

/-- The ascii block loop dispatches one block per extent row, independent
of any consumer's flag: it is exactly the map of the per-block dispatch
over the populated blocks. -/
theorem blockLoopAscii_eq_map (p : Plot3DParser) (dims : Nat) :
    ∀ (rows : List (List Int)) (vals : List Val),
      blockLoopAscii p dims rows vals
        = (blocksOfAscii dims rows vals).map (dispatchBlock p dims) := by
  intro rows
  induction rows with
  | nil => intro vals; rfl
  | cons row rows ih =>
    intro vals
    simp only [blockLoopAscii, blocksOfAscii, List.map_cons, ih]

/-- On success, the binary block loop dispatches one block per extent row,
each through the per-block dispatch. -/
theorem blockLoopB_ok_log (p : Plot3DParser) (dims : Nat) :
    ∀ (rows : List (List Int)) (toks t : List BinTok),
      (blockLoopB p dims rows toks).2.2 = .ok t →
      ∃ ms : List StructuredMeshBlock3D,
        (blockLoopB p dims rows toks).1 = ms.map (dispatchBlock p dims)
        ∧ ms.length = rows.length := by
  intro rows
  induction rows with
  | nil => intro toks t _; exact ⟨[], rfl, rfl⟩
  | cons row rows ih =>
    intro toks t h
    simp only [blockLoopB] at h
    rcases hro : record_open toks with e | ⟨len, t1⟩
    · rw [hro] at h; simp at h
    · rw [hro] at h
      dsimp only at h
      rcases hpb : parseBlockB dims row t1 with e | ⟨mesh, t2, vs⟩
      · rw [hpb] at h; simp at h
      · rw [hpb] at h
        dsimp only at h
        rcases hrc : record_close len t2 with e | t3
        · rw [hrc] at h; simp at h
        · rw [hrc] at h
          dsimp only at h
          obtain ⟨ms, hms, hlen⟩ := ih t3 t h
          refine ⟨mesh :: ms, ?_, by simp [hlen]⟩
          simp only [blockLoopB, hro, hpb, hrc, List.map_cons, hms]

/-- C10: each registered consumer is invoked with its own by-value copy of
the block, so a mutation a consumer makes to its argument is not
observable by later consumers of the same block: the fan-out log shows
every invoked consumer receiving exactly the parsed block, and the log is
a function of the consumers' flag components alone — the (possibly
mutated) copies they return never enter it. -/
theorem consumers_receive_independent_copies
    (cs3 : List Consumer3) (b3 : StructuredMeshBlock3D)
    (cs2 : List Consumer2) (b2 : StructuredMeshBlock2D) :
    runConsumers3 cs3 b3
        = (takeToFirstFalse (cs3.map fun c => (c.run b3).1)).map (fun fl => (b3, fl))
    ∧ runConsumers2 cs2 b2
        = (takeToFirstFalse (cs2.map fun c => (c.run b2).1)).map (fun fl => (b2, fl)) :=
  ⟨runConsumers3_spec cs3 b3, runConsumers2_spec cs2 b2⟩

/-- C3: consumers are invoked in registration order and a `false` return
skips the remaining consumers for that block only; the block loop still
dispatches every following block, whose fan-out restarts from the first
registered consumer.  Conjuncts: the fan-out flag logs are exactly the
registered flag sequence truncated at the first `false` (3D and 2D); the
ascii block loop is the map of the per-block dispatch over all populated
blocks (so no consumer flag shortens it); a successful binary block loop
dispatches exactly one block per extent row through the same per-block
dispatch. -/
theorem consumer_fanout_order_and_continuation
    (cs3 : List Consumer3) (b3 : StructuredMeshBlock3D)
    (cs2 : List Consumer2) (b2 : StructuredMeshBlock2D)
    (p : Plot3DParser) (dims : Nat) (rows : List (List Int))
    (vals : List Val) (toks : List BinTok) :
    ((runConsumers3 cs3 b3).map Prod.snd
        = takeToFirstFalse (cs3.map fun c => (c.run b3).1))
    ∧ ((runConsumers2 cs2 b2).map Prod.snd
        = takeToFirstFalse (cs2.map fun c => (c.run b2).1))
    ∧ blockLoopAscii p dims rows vals
        = (blocksOfAscii dims rows vals).map (dispatchBlock p dims)
    ∧ (∀ t, (blockLoopB p dims rows toks).2.2 = .ok t →
        ∃ ms : List StructuredMeshBlock3D,
          (blockLoopB p dims rows toks).1 = ms.map (dispatchBlock p dims)
          ∧ ms.length = rows.length) := by
  refine ⟨?_, ?_, blockLoopAscii_eq_map p dims rows vals,
    fun t h => blockLoopB_ok_log p dims rows toks t h⟩
  · simp [runConsumers3_spec, List.map_map, Function.comp]
  · simp [runConsumers2_spec, List.map_map, Function.comp]

/-- Witness for C3 at a concrete one-block binary stream. -/
theorem consumer_fanout_order_and_continuation_witness :
    ∃ ms : List StructuredMeshBlock3D,
      (blockLoopB (mkParser true 2 [keepConsumer2] []) 2 [[1, 1]]
          [BinTok.i 16, BinTok.d 5, BinTok.d 6, BinTok.i 16]).1
        = ms.map (dispatchBlock (mkParser true 2 [keepConsumer2] []) 2)
      ∧ ms.length = 1 :=
  (consumer_fanout_order_and_continuation [] (mkBlock3 0 0 0) []
      (projectTo2D (mkBlock3 0 0 0)) (mkParser true 2 [keepConsumer2] []) 2
      [[1, 1]] [] [BinTok.i 16, BinTok.d 5, BinTok.d 6, BinTok.i 16]).2.2.2
    [] rfl

/-- C1 (amended): a decoded block count of 0 or negative is rejected
before any block is dispatched on the binary path (`throw -1`); on the
ascii path a negative count is fatal (the extent vectors' `resize` throws
and the handler reports the line counter, here 2) before any block is
dispatched, but a count of exactly 0 is accepted and yields a successful
parse of zero blocks. -/
theorem block_count_validation (p : Plot3DParser) (dims : Nat)
    (L nb : Int) (rest : List BinTok) (input : AsciiInput) :
    (p.single_block = false → nb < 1 →
      (parse_binary p dims (BinTok.i L :: BinTok.i nb :: BinTok.i L :: rest)).log = []
      ∧ (parse_binary p dims (BinTok.i L :: BinTok.i nb :: BinTok.i L :: rest)).res
          = Except.error (PErr.code (-1)))
    ∧ (p.single_block = false → atoi (getline input.lines).1 < 0 →
      (parse_ascii p dims input).log = []
      ∧ (parse_ascii p dims input).res = Except.error 2)
    ∧ (p.single_block = false → atoi (getline input.lines).1 = 0 →
      (parse_ascii p dims input).log = []
      ∧ (parse_ascii p dims input).res = Except.ok ()) := by
  refine ⟨fun hsb hnb => ?_, fun hsb h0 => ?_, fun hsb h0 => ?_⟩
  · simp [parse_binary, hsb, record_open, readIntB, record_close, hnb]
  · simp [parse_ascii, hsb, h0]
  · simp [parse_ascii, hsb, h0, readExtentLines, blockLoopAscii]

/-- Witness for C1's amended statement: the binary stream framing a block
count of 0 fails with `throw -1` and dispatches nothing; ascii `-3` fails
with line context 2; ascii `0` succeeds with zero blocks. -/
theorem block_count_validation_witness :
    ((parse_binary (mkParser false 2 [] []) 2
        [BinTok.i 4, BinTok.i 0, BinTok.i 4]).res
      = Except.error (PErr.code (-1)))
    ∧ ((parse_ascii (mkParser false 2 [] []) 2
        { lines := ["-3"], vals := [] }).res = Except.error 2)
    ∧ ((parse_ascii (mkParser false 2 [] []) 2
        { lines := ["0"], vals := [] }).res = Except.ok ()) :=
  ⟨((block_count_validation (mkParser false 2 [] []) 2 4 0 []
      { lines := [], vals := [] }).1 rfl (by decide)).2,
   ((block_count_validation (mkParser false 2 [] []) 2 0 0 []
      { lines := ["-3"], vals := [] }).2.1 rfl (by decide)).2,
   ((block_count_validation (mkParser false 2 [] []) 2 0 0 []
      { lines := ["0"], vals := [] }).2.2 rfl (by decide)).2⟩

/-- C1 counterexample: the claim as stated demands a fatal error for a
decoded ascii block count of 0, but the ascii parser accepts it: with the
single-block flag off and first line `0`, the parse returns success and
dispatches no block (only the binary path has the `< 1` check). -/
theorem ascii_zero_block_count_parses_ok :
    (parse_ascii (mkParser false 2 [] []) 2
        { lines := ["0"], vals := [] }).res = Except.ok ()
    ∧ (parse_ascii (mkParser false 2 [] []) 2
        { lines := ["0"], vals := [] }).log = [] := by
  exact ⟨rfl, rfl⟩

/-- The line counter of the ascii header phase stays one ahead of the
number of `getline` calls made: on failure the reported line number is
`calls + 1`, and on success the running counter still is. -/
theorem readExtentLines_line_invariant (dims : Nat) :
    ∀ (n : Nat) (lines : List String) (ln : Int) (calls : Nat),
      ln = (calls : Int) + 1 →
      (∀ e c2, readExtentLines dims n lines ln calls = (.error e, c2) →
        e = (c2 : Int) + 1)
      ∧ (∀ rows rest ln2 c2,
          readExtentLines dims n lines ln calls = (.ok (rows, rest, ln2), c2) →
            ln2 = (c2 : Int) + 1) := by
  intro n
  induction n with
  | zero =>
    intro lines ln calls hln
    constructor
    · intro e c2 h
      simp [readExtentLines] at h
    · intro rows rest ln2 c2 h
      simp only [readExtentLines, Prod.mk.injEq, Except.ok.injEq] at h
      obtain ⟨⟨h1, h2, h3⟩, h4⟩ := h
      omega
  | succ n ih =>
    intro lines ln calls hln
    have hln1 : ln + 1 = ((calls + 1 : Nat) : Int) + 1 := by push_cast; omega
    constructor
    · intro e c2 h
      simp only [readExtentLines] at h
      by_cases hlt : (tokenise (getline lines).1).length < dims
      · rw [if_pos hlt] at h
        simp only [Prod.mk.injEq, Except.error.injEq] at h
        obtain ⟨h1, h2⟩ := h
        omega
      · rw [if_neg hlt] at h
        rcases hst : stoiRow ((tokenise (getline lines).1).take dims) with u | row
        · rw [hst] at h
          dsimp only at h
          simp only [Prod.mk.injEq, Except.error.injEq] at h
          obtain ⟨h1, h2⟩ := h
          omega
        · rw [hst] at h
          dsimp only at h
          rcases hre : readExtentLines dims n (getline lines).2 (ln + 1) (calls + 1)
            with ⟨res, c2x⟩
          rw [hre] at h
          rcases res with e2 | ⟨rows2, rest2, ln2x⟩
          · dsimp only at h
            simp only [Prod.mk.injEq, Except.error.injEq] at h
            obtain ⟨h1, h2⟩ := h
            have := (ih (getline lines).2 (ln + 1) (calls + 1) hln1).1 e2 c2x hre
            omega
          · dsimp only at h
            simp at h
    · intro rows rest ln2 c2 h
      simp only [readExtentLines] at h
      by_cases hlt : (tokenise (getline lines).1).length < dims
      · rw [if_pos hlt] at h
        simp at h
      · rw [if_neg hlt] at h
        rcases hst : stoiRow ((tokenise (getline lines).1).take dims) with u | row
        · rw [hst] at h
          dsimp only at h
          simp at h
        · rw [hst] at h
          dsimp only at h
          rcases hre : readExtentLines dims n (getline lines).2 (ln + 1) (calls + 1)
            with ⟨res, c2x⟩
          rw [hre] at h
          rcases res with e2 | ⟨rows2, rest2, ln2x⟩
          · dsimp only at h
            simp at h
          · dsimp only at h
            simp only [Prod.mk.injEq, Except.ok.injEq] at h
            obtain ⟨⟨h1, h2, h3⟩, h4⟩ := h
            have := (ih (getline lines).2 (ln + 1) (calls + 1) hln1).2
              rows2 rest2 ln2x c2x hre
            omega

/-- C9: whenever an ascii-mode parse fails, the fatal error it surfaces is
the parser's 1-based line counter at the point of failure: one more than
the number of `getline` calls performed so far, i.e. the 1-based number
of the input line the stream has advanced to. -/
theorem ascii_error_carries_line_context (p : Plot3DParser) (dims : Nat)
    (input : AsciiInput) (e : Int)
    (h : (parse_ascii p dims input).res = Except.error e) :
    e = ((parse_ascii p dims input).calls : Int) + 1 := by
  rcases hsb : p.single_block with _ | _
  · simp only [parse_ascii, hsb, Bool.false_eq_true, if_false] at h ⊢
    by_cases h0 : atoi (getline input.lines).1 < 0
    · rw [if_pos h0] at h ⊢
      simp at h ⊢
      omega
    · rw [if_neg h0] at h ⊢
      rcases hre : readExtentLines dims (atoi (getline input.lines).1).toNat
          (getline input.lines).2 2 1 with ⟨res, c2⟩
      rcases res with e2 | ⟨rows, rest, ln2⟩
      · rw [hre] at h
        replace h : e2 = e := by simpa using h
        have hinv := (readExtentLines_line_invariant dims
          (atoi (getline input.lines).1).toNat (getline input.lines).2 2 1
          (by norm_num)).1 e2 c2 hre
        show e = (c2 : Int) + 1
        omega
      · rw [hre] at h
        simp at h
  · simp only [parse_ascii, hsb, eq_self_iff_true, if_true] at h ⊢
    rw [if_neg (by norm_num : ¬((1 : Int) < 0))] at h ⊢
    rcases hre : readExtentLines dims (1 : Int).toNat input.lines 1 0
      with ⟨res, c2⟩
    rcases res with e2 | ⟨rows, rest, ln2⟩
    · rw [hre] at h
      replace h : e2 = e := by simpa using h
      have hinv := (readExtentLines_line_invariant dims (1 : Int).toNat
        input.lines 1 0 (by norm_num)).1 e2 c2 hre
      show e = (c2 : Int) + 1
      omega
    · rw [hre] at h
      simp at h

/-- Witness for C9: a two-line input whose extent line is short fails with
line context 3 after two `getline` calls. -/
theorem ascii_error_carries_line_context_witness :
    (3 : Int) = ((parse_ascii (mkParser false 2 [] []) 2
        { lines := ["1", "2"], vals := [] }).calls : Int) + 1 :=
  ascii_error_carries_line_context (mkParser false 2 [] []) 2
    { lines := ["1", "2"], vals := [] } 3 rfl

/-- C2 (code-slip evidence, `HBTK/Plot3DParser.cpp` line 254): on the
snapshot parser's 3D ascii path, a single 1×1×1 block whose three passes
read 1, 2 and 3 is dispatched with coordinate (1, 3, 0): the third (Z)
pass writes the Y component (`std::get<1>`), so Y is overwritten with the
Z value and the Z component keeps its zero initialisation instead of the
value 3 read in the third pass. -/
theorem hbtk_third_pass_writes_y_not_z :
    (parse_ascii_hbtk (mkParser true 3 [] [keepConsumer3]) 3
        ["1 1 1", "1", "2", "3"]).res = Except.ok ()
    ∧ firstCoord3 (parse_ascii_hbtk (mkParser true 3 [] [keepConsumer3]) 3
        ["1 1 1", "1", "2", "3"]) = (1, 3, 0)
    ∧ (firstCoord3 (parse_ascii_hbtk (mkParser true 3 [] [keepConsumer3]) 3
        ["1 1 1", "1", "2", "3"])).2.2 ≠ 3 := by
  refine ⟨rfl, rfl, by decide⟩

/-- Length of the offsets scratch array. -/
theorem offsetsScratchFrom_length (cells : List VtkCell) :
    ∀ counter : Int, (offsetsScratchFrom counter cells).length = cells.length := by
  induction cells with
  | nil => intro counter; rfl
  | cons c cs ih => intro counter; simp [offsetsScratchFrom, ih]

/-- Entry `i` of the offsets scratch array is the starting counter plus the
node counts of cells `0..i`. -/
theorem offsetsScratchFrom_getD (cells : List VtkCell) :
    ∀ (counter : Int) (i : Nat), i < cells.length →
      (offsetsScratchFrom counter cells).getD i 0
        = counter + (((nodeCounts cells).take (i + 1)).sum : Int) := by
  induction cells with
  | nil => intro counter i h; simp at h
  | cons c cs ih =>
    intro counter i hi
    cases i with
    | zero => simp [offsetsScratchFrom, nodeCounts]
    | succ i =>
      simp only [offsetsScratchFrom, List.getD_cons_succ, nodeCounts,
        List.map_cons, List.take_succ_cons, List.sum_cons]
      rw [show nodeCounts cs = cs.map (fun c => c.node_ids.length) from rfl] at ih
      rw [ih (counter + (c.node_ids.length : Int)) i (by simpa using hi)]
      push_cast
      ring

/-- The connectivity scratch array is the flattened in-order concatenation
of the cells' node index lists. -/
theorem connectivityScratch_eq_flatten (cells : List VtkCell) :
    connectivityScratch cells = (cells.map (fun c => c.node_ids)).flatten := by
  induction cells with
  | nil => rfl
  | cons c cs ih => simp [connectivityScratch, ih]

/-- The connectivity scratch array's length is the summed node counts. -/
theorem connectivityScratch_length (cells : List VtkCell) :
    (connectivityScratch cells).length = (nodeCounts cells).sum := by
  induction cells with
  | nil => rfl
  | cons c cs ih => simp [connectivityScratch, nodeCounts, ih]

/-- Prefix sums of a natural-number list are monotone in the prefix. -/
theorem sum_take_mono (l : List Nat) :
    ∀ i j, i ≤ j → (l.take i).sum ≤ (l.take j).sum := by
  induction l with
  | nil => intro i j _; simp
  | cons a l ih =>
    intro i j h
    cases i with
    | zero => simp
    | succ i =>
      cases j with
      | zero => exact absurd h (by omega)
      | succ j =>
        simp only [List.take_succ_cons, List.sum_cons]
        exact Nat.add_le_add_left (ih i j (by omega)) a

/-- C4: for a dataset with M cells, the emitted `offsets` array has length
M, entry i equals the sum of the node counts of cells 0..i (hence it is
non-decreasing and its last entry equals the total connectivity length),
and the emitted `connectivity` array is the in-order concatenation of
every cell's node indices, with length the sum of per-cell node counts. -/
theorem offsets_connectivity_arrays (cells : List VtkCell) :
    (offsetsScratch cells).length = cells.length
    ∧ (∀ i, i < cells.length →
        (offsetsScratch cells).getD i 0
          = (((nodeCounts cells).take (i + 1)).sum : Int))
    ∧ (∀ i j, i ≤ j → j < cells.length →
        (offsetsScratch cells).getD i 0 ≤ (offsetsScratch cells).getD j 0)
    ∧ (cells ≠ [] →
        (offsetsScratch cells).getD (cells.length - 1) 0
          = ((connectivityScratch cells).length : Int))
    ∧ connectivityScratch cells = (cells.map (fun c => c.node_ids)).flatten
    ∧ (connectivityScratch cells).length = (nodeCounts cells).sum := by
  have hget : ∀ i, i < cells.length →
      (offsetsScratch cells).getD i 0
        = (((nodeCounts cells).take (i + 1)).sum : Int) := by
    intro i hi
    have := offsetsScratchFrom_getD cells 0 i hi
    simpa [offsetsScratch] using this
  refine ⟨by simpa [offsetsScratch] using offsetsScratchFrom_length cells 0,
    hget, ?_, ?_, connectivityScratch_eq_flatten cells,
    connectivityScratch_length cells⟩
  · intro i j hij hj
    rw [hget i (lt_of_le_of_lt hij hj), hget j hj]
    exact_mod_cast sum_take_mono (nodeCounts cells) (i + 1) (j + 1) (by omega)
  · intro hne
    have hlen : 0 < cells.length := List.length_pos.mpr hne
    rw [hget (cells.length - 1) (by omega), connectivityScratch_length cells]
    have h1 : cells.length - 1 + 1 = cells.length := by omega
    rw [h1]
    have h2 : (nodeCounts cells).take cells.length = nodeCounts cells := by
      have : (nodeCounts cells).length = cells.length := by
        simp [nodeCounts]
      rw [show cells.length = (nodeCounts cells).length from this.symm,
        List.take_length]
    rw [h2]

/-- Witness for C4 on a concrete two-cell mesh (node counts 3 and 2). -/
theorem offsets_connectivity_arrays_witness :
    ((offsetsScratch [{ cell_type := 5, node_ids := [0, 1, 2] },
        { cell_type := 9, node_ids := [2, 3] }]).getD 1 0
      = (((nodeCounts [{ cell_type := 5, node_ids := [0, 1, 2] },
        { cell_type := 9, node_ids := [2, 3] }]).take 2).sum : Int))
    ∧ ((offsetsScratch [{ cell_type := 5, node_ids := [0, 1, 2] },
        { cell_type := 9, node_ids := [2, 3] }]).getD 0 0
      ≤ (offsetsScratch [{ cell_type := 5, node_ids := [0, 1, 2] },
        { cell_type := 9, node_ids := [2, 3] }]).getD 1 0)
    ∧ ((offsetsScratch [{ cell_type := 5, node_ids := [0, 1, 2] },
        { cell_type := 9, node_ids := [2, 3] }]).getD 1 0
      = ((connectivityScratch [{ cell_type := 5, node_ids := [0, 1, 2] },
        { cell_type := 9, node_ids := [2, 3] }]).length : Int)) :=
  ⟨(offsets_connectivity_arrays _).2.1 1 (by decide),
   (offsets_connectivity_arrays _).2.2.1 0 1 (by decide) (by decide),
   (offsets_connectivity_arrays _).2.2.2.1 (by simp)⟩

/-- Appended-mode emission shape of the scalar `vtk_data_array` overload. -/
theorem vtk_data_array_scalars_appended (w : VtkWriter) (name : String)
    (arr : List Val) (hap : w.appended = true) (has : w.ascii = false) :
    (vtk_data_array_scalars w name arr).1
      = [XEv.tagOpen "DataArray"
          [("type", "Float64"), ("Name", name), ("NumberOfComponents", "1"),
           ("format", "appended"), ("Offset", toString (appended_data_bytelength w))],
         XEv.tagClose "DataArray"]
    ∧ ∃ w2 b, (vtk_data_array_scalars w name arr).2 = .ok w2
        ∧ w2.m_appended_data = w.m_appended_data ++ [b] := by
  simp [vtk_data_array_scalars, vtk_data_array_format_options,
    vtk_data_array_generate_buffer_scalars, XmlWriter.open_tag,
    XmlWriter.close_tag, hap, has]

/-- Appended-mode emission shape of the integer `vtk_data_array` overload. -/
theorem vtk_data_array_ints_appended (w : VtkWriter) (name : String)
    (arr : List Int) (hap : w.appended = true) (has : w.ascii = false) :
    (vtk_data_array_ints w name arr).1
      = [XEv.tagOpen "DataArray"
          [("type", "Int64"), ("Name", name), ("NumberOfComponents", "1"),
           ("format", "appended"), ("Offset", toString (appended_data_bytelength w))],
         XEv.tagClose "DataArray"]
    ∧ ∃ w2 b, (vtk_data_array_ints w name arr).2 = .ok w2
        ∧ w2.m_appended_data = w.m_appended_data ++ [b] := by
  simp [vtk_data_array_ints, vtk_data_array_format_options,
    vtk_data_array_generate_buffer_ints, XmlWriter.open_tag,
    XmlWriter.close_tag, hap, has]

/-- Appended-mode emission shape of the 3-vector `vtk_data_array`
overload. -/
theorem vtk_data_array_vectors_appended (w : VtkWriter) (name : String)
    (arr : List (Val × Val × Val)) (hap : w.appended = true)
    (has : w.ascii = false) :
    (vtk_data_array_vectors w name arr).1
      = [XEv.tagOpen "DataArray"
          [("type", "Float64"), ("Name", name), ("NumberOfComponents", "3"),
           ("format", "appended"), ("Offset", toString (appended_data_bytelength w))],
         XEv.tagClose "DataArray"]
    ∧ ∃ w2 b, (vtk_data_array_vectors w name arr).2 = .ok w2
        ∧ w2.m_appended_data = w.m_appended_data ++ [b] := by
  simp [vtk_data_array_vectors, vtk_data_array_format_options,
    vtk_data_array_generate_buffer_vectors, XmlWriter.open_tag,
    XmlWriter.close_tag, hap, has]

/-- Appended-mode emission shape of the point `vtk_data_array` overload. -/
theorem vtk_data_array_points_appended (w : VtkWriter) (name : String)
    (arr : List (Val × Val × Val)) (hap : w.appended = true)
    (has : w.ascii = false) :
    (vtk_data_array_points w name arr).1
      = [XEv.tagOpen "DataArray"
          [("type", "Float64"), ("Name", name), ("NumberOfComponents", "3"),
           ("format", "appended"), ("Offset", toString (appended_data_bytelength w))],
         XEv.tagClose "DataArray"]
    ∧ ∃ w2 b, (vtk_data_array_points w name arr).2 = .ok w2
        ∧ w2.m_appended_data = w.m_appended_data ++ [b] := by
  simp [vtk_data_array_points, vtk_data_array_format_options,
    vtk_data_array_generate_buffer_points, XmlWriter.open_tag,
    XmlWriter.close_tag, hap, has]

/-- C5: every data array serialized in appended mode carries an `Offset`
attribute equal to the summed lengths of all buffers previously submitted
to the trailer manager (0 for the first appended array), the format
attributes being computed before the array's own buffer is submitted; the
buffer is then appended to the trailer list.  All four array overloads
behave alike. -/
theorem appended_offset_equals_prior_buffer_lengths (w : VtkWriter)
    (name : String) (scalars : List Val) (ints : List Int)
    (vects pnts : List (Val × Val × Val))
    (hap : w.appended = true) (has : w.ascii = false) :
    appended_data_bytelength w = (w.m_appended_data.map List.length).sum
    ∧ ((vtk_data_array_scalars w name scalars).1
        = [XEv.tagOpen "DataArray"
            [("type", "Float64"), ("Name", name), ("NumberOfComponents", "1"),
             ("format", "appended"), ("Offset", toString (appended_data_bytelength w))],
           XEv.tagClose "DataArray"]
      ∧ ∃ w2 b, (vtk_data_array_scalars w name scalars).2 = .ok w2
          ∧ w2.m_appended_data = w.m_appended_data ++ [b])
    ∧ ((vtk_data_array_ints w name ints).1
        = [XEv.tagOpen "DataArray"
            [("type", "Int64"), ("Name", name), ("NumberOfComponents", "1"),
             ("format", "appended"), ("Offset", toString (appended_data_bytelength w))],
           XEv.tagClose "DataArray"]
      ∧ ∃ w2 b, (vtk_data_array_ints w name ints).2 = .ok w2
          ∧ w2.m_appended_data = w.m_appended_data ++ [b])
    ∧ ((vtk_data_array_vectors w name vects).1
        = [XEv.tagOpen "DataArray"
            [("type", "Float64"), ("Name", name), ("NumberOfComponents", "3"),
             ("format", "appended"), ("Offset", toString (appended_data_bytelength w))],
           XEv.tagClose "DataArray"]
      ∧ ∃ w2 b, (vtk_data_array_vectors w name vects).2 = .ok w2
          ∧ w2.m_appended_data = w.m_appended_data ++ [b])
    ∧ ((vtk_data_array_points w name pnts).1
        = [XEv.tagOpen "DataArray"
            [("type", "Float64"), ("Name", name), ("NumberOfComponents", "3"),
             ("format", "appended"), ("Offset", toString (appended_data_bytelength w))],
           XEv.tagClose "DataArray"]
      ∧ ∃ w2 b, (vtk_data_array_points w name pnts).2 = .ok w2
          ∧ w2.m_appended_data = w.m_appended_data ++ [b]) :=
  ⟨rfl,
   vtk_data_array_scalars_appended w name scalars hap has,
   vtk_data_array_ints_appended w name ints hap has,
   vtk_data_array_vectors_appended w name vects hap has,
   vtk_data_array_points_appended w name pnts hap has⟩

/-- Witness for C5: with two buffers of lengths 3 and 2 already
submitted, the next scalar array's tag carries Offset 5 and the trailer
list grows by exactly the new buffer. -/
theorem appended_offset_equals_prior_buffer_lengths_witness :
    (vtk_data_array_scalars appendedWriterFx "T" [7]).1
      = [XEv.tagOpen "DataArray"
          [("type", "Float64"), ("Name", "T"), ("NumberOfComponents", "1"),
           ("format", "appended"),
           ("Offset", toString (appended_data_bytelength appendedWriterFx))],
         XEv.tagClose "DataArray"]
    ∧ ∃ w2 b, (vtk_data_array_scalars appendedWriterFx "T" [7]).2 = .ok w2
        ∧ w2.m_appended_data = appendedWriterFx.m_appended_data ++ [b] :=
  (appended_offset_equals_prior_buffer_lengths
    appendedWriterFx "T" [7] [] [] [] rfl rfl).2.1

/-- C6: `close_file` emits the trailer element exactly when at least one
buffer was submitted; the trailer holds the leading underscore byte and
the literal concatenation of all submitted buffers in submission order,
wrapped in one `AppendedData` span whose encoding attribute follows the
ascii/binary setting; it sits after the grid container's closing tag and
before the document root's closing tag. -/
theorem close_file_trailer (w : VtkWriter) (a b : String) (rest : List String)
    (hstack : w.m_xml_writer.stack = a :: b :: rest) :
    (close_file w).1
      = [XEv.tagClose a]
        ++ (if w.m_appended_data = [] then []
            else XEv.tagOpen "AppendedData"
                [("encoding", if w.ascii then "ascii" else "base64")]
              :: XEv.byte 95
              :: ((w.m_appended_data.flatten.map XEv.byte)
                  ++ [XEv.tagClose "AppendedData"]))
        ++ [XEv.tagClose b]
    ∧ ((∃ attrs, XEv.tagOpen "AppendedData" attrs ∈ (close_file w).1)
        ↔ w.m_appended_data ≠ []) := by
  rcases hd : w.m_appended_data with _ | ⟨buf, bufs⟩
  · constructor
    · simp [close_file, XmlWriter.close_tag, hstack, hd]
    · simp [close_file, XmlWriter.close_tag, hstack, hd]
  · constructor
    · simp [close_file, XmlWriter.close_tag, XmlWriter.open_tag, hstack, hd]
    · simp [close_file, XmlWriter.close_tag, XmlWriter.open_tag, hstack, hd]

/-- Witness for C6: with the grid and root tags open and two submitted
buffers, `close_file` emits exactly close-grid, the `AppendedData` span
with the concatenated bytes, and close-root. -/
theorem close_file_trailer_witness :
    (close_file { appendedWriterFx with
        m_xml_writer := { stack := ["UnstructuredGrid", "VTKFile"] } }).1
      = [XEv.tagClose "UnstructuredGrid"]
        ++ (if ({ appendedWriterFx with
              m_xml_writer := { stack := ["UnstructuredGrid", "VTKFile"] } }
                : VtkWriter).m_appended_data = [] then []
            else XEv.tagOpen "AppendedData"
                [("encoding", if ({ appendedWriterFx with
                    m_xml_writer := { stack := ["UnstructuredGrid", "VTKFile"] } }
                      : VtkWriter).ascii then "ascii" else "base64")]
              :: XEv.byte 95
              :: ((({ appendedWriterFx with
                    m_xml_writer := { stack := ["UnstructuredGrid", "VTKFile"] } }
                      : VtkWriter).m_appended_data.flatten.map XEv.byte)
                  ++ [XEv.tagClose "AppendedData"]))
        ++ [XEv.tagClose "VTKFile"]
    ∧ ((∃ attrs, XEv.tagOpen "AppendedData" attrs
          ∈ (close_file { appendedWriterFx with
              m_xml_writer := { stack := ["UnstructuredGrid", "VTKFile"] } }).1)
        ↔ ({ appendedWriterFx with
            m_xml_writer := { stack := ["UnstructuredGrid", "VTKFile"] } }
              : VtkWriter).m_appended_data ≠ []) :=
  close_file_trailer
    { appendedWriterFx with
      m_xml_writer := { stack := ["UnstructuredGrid", "VTKFile"] } }
    "UnstructuredGrid" "VTKFile" [] rfl

/-- C7: selecting ascii and appended together makes `write_piece` fail
with the configuration error raised by `vtk_data_array_format_options`
before any `DataArray` tag (or array payload) is emitted: only the
`Piece` and `Points` open tags precede the failure. -/
theorem ascii_appended_fatal_before_data_array (w : VtkWriter)
    (data : VtkUnstructuredDataset) (hascii : w.ascii = true)
    (hap : w.appended = true)
    (hft : w.m_file_type = VtkFileType.UnstructuredGrid) :
    (write_piece w data).2 = .error ()
    ∧ (write_piece w data).1
        = [XEv.tagOpen "Piece"
            [("NumberOfPoints", toString data.mesh.points.length),
             ("NumberOfCells", toString data.mesh.cells.length)],
           XEv.tagOpen "Points" []]
    ∧ ∀ ev ∈ (write_piece w data).1, ∀ attrs, ev ≠ XEv.tagOpen "DataArray" attrs := by
  refine ⟨?_, ?_, ?_⟩ <;>
    simp [write_piece, vtk_unstructured_piece, vtk_unstructured_mesh,
      vtk_data_array_points, vtk_data_array_format_options,
      XmlWriter.open_tag, hascii, hap, hft]

/-- Witness for C7 on an empty dataset with an ascii+appended writer. -/
theorem ascii_appended_fatal_before_data_array_witness :
    (write_piece { VtkWriter.init with
        ascii := true
        appended := true
        m_file_type := VtkFileType.UnstructuredGrid } emptyDataset).2 = .error ()
    ∧ (write_piece { VtkWriter.init with
        ascii := true
        appended := true
        m_file_type := VtkFileType.UnstructuredGrid } emptyDataset).1
        = [XEv.tagOpen "Piece"
            [("NumberOfPoints", toString emptyDataset.mesh.points.length),
             ("NumberOfCells", toString emptyDataset.mesh.cells.length)],
           XEv.tagOpen "Points" []]
    ∧ ∀ ev ∈ (write_piece { VtkWriter.init with
        ascii := true
        appended := true
        m_file_type := VtkFileType.UnstructuredGrid } emptyDataset).1,
        ∀ attrs, ev ≠ XEv.tagOpen "DataArray" attrs :=
  ascii_appended_fatal_before_data_array
    { VtkWriter.init with
      ascii := true
      appended := true
      m_file_type := VtkFileType.UnstructuredGrid } emptyDataset rfl rfl rfl

/-- A successful binary pass reads exactly one value per traversal index. -/
theorem readPassB_ok_length (c : Nat) :
    ∀ (ps : List (Int × Int × Int)) (m : StructuredMeshBlock3D)
      (toks : List BinTok) (m2 : StructuredMeshBlock3D) (t2 : List BinTok)
      (vs : List Val),
      readPassB c ps m toks = .ok (m2, t2, vs) → vs.length = ps.length := by
  intro ps
  induction ps with
  | nil =>
    intro m toks m2 t2 vs h
    simp only [readPassB, Except.ok.injEq, Prod.mk.injEq] at h
    rw [← h.2.2]
    rfl
  | cons q ps ih =>
    intro m toks m2 t2 vs h
    simp only [readPassB] at h
    rcases hv : readValB toks with e | ⟨v, t1⟩
    · rw [hv] at h; simp at h
    · rw [hv] at h
      dsimp only at h
      rcases hr : readPassB c ps (setCoord3 m q (updComp c (m.coords q) v)) t1
        with e | ⟨m3, t3, vs3⟩
      · rw [hr] at h; simp at h
      · rw [hr] at h
        dsimp only at h
        simp only [Except.ok.injEq, Prod.mk.injEq] at h
        rw [← h.2.2]
        simp [ih _ _ _ _ _ hr]

/-- A successful per-block binary read consumes exactly the block's entire
coordinate payload: all passes over the full grid of its extent row. -/
theorem parseBlockB_ok_length (dims : Nat) (row : List Int) :
    ∀ (toks : List BinTok) (mesh : StructuredMeshBlock3D) (t2 : List BinTok)
      (vs : List Val),
      parseBlockB dims row toks = .ok (mesh, t2, vs) →
      vs.length = blockPayloadLength dims row := by
  intro toks mesh t2 vs h
  simp only [parseBlockB] at h
  rcases h1 : readPassB 0
      (idxGrid (row.getD 0 0) (row.getD 1 0)
        (if dims = 3 then row.getD 2 0 else 1))
      (mkBlock3 (row.getD 0 0) (row.getD 1 0)
        (if dims = 3 then row.getD 2 0 else 1)) toks with e | ⟨m1, t1, v1⟩
  · rw [h1] at h; simp at h
  · rw [h1] at h
    dsimp only at h
    rcases h2 : readPassB 1
        (idxGrid (row.getD 0 0) (row.getD 1 0)
          (if dims = 3 then row.getD 2 0 else 1)) m1 t1 with e | ⟨m2x, t2x, v2⟩
    · rw [h2] at h; simp at h
    · rw [h2] at h
      dsimp only at h
      have e1 := readPassB_ok_length 0 _ _ _ _ _ _ h1
      have e2 := readPassB_ok_length 1 _ _ _ _ _ _ h2
      by_cases hd : dims = 3
      · rw [if_pos hd] at h
        rcases h3 : readPassB 2
            (idxGrid (row.getD 0 0) (row.getD 1 0)
              (if dims = 3 then row.getD 2 0 else 1)) m2x t2x
          with e | ⟨m3, t3, v3⟩
        · rw [h3] at h; simp at h
        · rw [h3] at h
          dsimp only at h
          simp only [Except.ok.injEq, Prod.mk.injEq] at h
          rw [← h.2.2]
          have e3 := readPassB_ok_length 2 _ _ _ _ _ _ h3
          simp only [List.length_append, e1, e2, e3, blockPayloadLength,
            if_pos hd]
          omega
      · rw [if_neg hd] at h
        simp only [Except.ok.injEq, Prod.mk.injEq] at h
        rw [← h.2.2]
        simp only [List.length_append, e1, e2, blockPayloadLength, if_neg hd]
        omega

/-- A successful extents read yields one row per block. -/
theorem readRowsB_length (dims : Nat) :
    ∀ (n : Nat) (toks : List BinTok) (rows : List (List Int))
      (t : List BinTok),
      readRowsB dims n toks = .ok (rows, t) → rows.length = n := by
  intro n
  induction n with
  | zero =>
    intro toks rows t h
    simp only [readRowsB, Except.ok.injEq, Prod.mk.injEq] at h
    rw [← h.1]
    rfl
  | succ n ih =>
    intro toks rows t h
    simp only [readRowsB] at h
    rcases h1 : readRowB dims toks with e | ⟨row, t1⟩
    · rw [h1] at h; simp at h
    · rw [h1] at h
      dsimp only at h
      rcases h2 : readRowsB dims n t1 with e | ⟨rows2, t2⟩
      · rw [h2] at h; simp at h
      · rw [h2] at h
        dsimp only at h
        simp only [Except.ok.injEq, Prod.mk.injEq] at h
        rw [← h.1]
        simp [ih _ _ _ h2]

/-- On success, the binary block loop's event trace is a flat sequence of
per-block segments, exactly one per extent row, the n-th being one record
frame holding exactly the n-th block's entire coordinate payload (every
pass over the full grid of its extent row). -/
theorem blockLoopB_ok_trace (p : Plot3DParser) (dims : Nat) :
    ∀ (rows : List (List Int)) (toks t : List BinTok),
      (blockLoopB p dims rows toks).2.2 = .ok t →
      ∃ segs : List (List BinEv),
        (blockLoopB p dims rows toks).2.1 = segs.flatten
        ∧ segs.length = rows.length
        ∧ ∀ n, n < rows.length → ∃ (a : Int) (vs : List Val),
            segs.getD n [] = BinEv.recOpen a :: vs.map BinEv.rdVal
              ++ [BinEv.recClose a]
            ∧ vs.length = blockPayloadLength dims (rows.getD n []) := by
  intro rows
  induction rows with
  | nil => intro toks t _; exact ⟨[], rfl, rfl, by simp⟩
  | cons row rows ih =>
    intro toks t h
    simp only [blockLoopB] at h
    rcases hro : record_open toks with e | ⟨len, t1⟩
    · rw [hro] at h; simp at h
    · rw [hro] at h
      dsimp only at h
      rcases hpb : parseBlockB dims row t1 with e | ⟨mesh, t2, vs⟩
      · rw [hpb] at h; simp at h
      · rw [hpb] at h
        dsimp only at h
        rcases hrc : record_close len t2 with e | t3
        · rw [hrc] at h; simp at h
        · rw [hrc] at h
          dsimp only at h
          obtain ⟨segs, hsegs, hslen, hshape⟩ := ih t3 t h
          refine ⟨(BinEv.recOpen len :: vs.map BinEv.rdVal
              ++ [BinEv.recClose len]) :: segs, ?_, by simp [hslen], ?_⟩
          · simp only [blockLoopB, hro, hpb, hrc, List.flatten_cons, hsegs]
          · intro n hn
            cases n with
            | zero =>
              exact ⟨len, vs, rfl,
                parseBlockB_ok_length dims row t1 mesh t2 vs hpb⟩
            | succ n =>
              simp only [List.getD_cons_succ]
              exact hshape n (by simpa using hn)

/-- C8: for every successful binary parse the event trace shows the block
count read inside exactly one record open/close pair (absent when
single-block), the whole extents table inside exactly one pair (holding
exactly the per-block extent rows, block-major), and exactly one pair per
block whose contents are that block's entire coordinate payload (all
passes over the full grid of its extent row, `vs.length =
blockPayloadLength`); a record whose trailing length differs from its
leading length is a fatal error, both at the adapter and propagated out
of `parse_binary`. -/
theorem binary_record_framing (p : Plot3DParser) (dims : Nat)
    (toks rest : List BinTok) (L nb L2 n2 : Int) :
    ((parse_binary p dims toks).res = .ok () →
      ∃ (hdr : List BinEv) (segs : List (List BinEv))
        (rows : List (List Int)) (a2 : Int),
        (parse_binary p dims toks).trace
          = hdr ++ (BinEv.recOpen a2 :: (rows.flatten).map BinEv.rdInt
              ++ [BinEv.recClose a2]) ++ segs.flatten
        ∧ (p.single_block = true → hdr = [] ∧ rows.length = 1)
        ∧ (p.single_block = false → ∃ (a c : Int),
            hdr = [BinEv.recOpen a, BinEv.rdInt c, BinEv.recClose a]
            ∧ rows.length = c.toNat)
        ∧ segs.length = rows.length
        ∧ (∀ n, n < rows.length → ∃ (b : Int) (vs : List Val),
            segs.getD n [] = BinEv.recOpen b :: vs.map BinEv.rdVal
              ++ [BinEv.recClose b]
            ∧ vs.length = blockPayloadLength dims (rows.getD n [])))
    ∧ (n2 ≠ L → record_close L (BinTok.i n2 :: rest) = .error PErr.stream)
    ∧ (p.single_block = false → L2 ≠ L →
        (parse_binary p dims (BinTok.i L :: BinTok.i nb :: BinTok.i L2 :: rest)).res
          = .error PErr.stream) := by
  refine ⟨?_, ?_, ?_⟩
  · intro hsucc
    rcases hsb : p.single_block with _ | _
    · -- multi-block: framed block count first
      simp only [parse_binary, hsb, Bool.false_eq_true, if_false] at hsucc ⊢
      rcases hro : record_open toks with e | ⟨len, t1⟩
      · rw [hro] at hsucc; simp at hsucc
      · rw [hro] at hsucc
        dsimp only at hsucc
        rcases hri : readIntB t1 with e | ⟨nb2, t2⟩
        · rw [hri] at hsucc; simp at hsucc
        · rw [hri] at hsucc
          dsimp only at hsucc
          rcases hrc : record_close len t2 with e | t3
          · rw [hrc] at hsucc; simp at hsucc
          · rw [hrc] at hsucc
            dsimp only at hsucc
            by_cases hnb : nb2 < 1
            · rw [if_pos hnb] at hsucc; simp at hsucc
            · rw [if_neg hnb] at hsucc
              dsimp only at hsucc
              rcases hro2 : record_open t3 with e | ⟨len2, t4⟩
              · rw [hro2] at hsucc; simp at hsucc
              · rw [hro2] at hsucc
                dsimp only at hsucc
                rcases hrr : readRowsB dims nb2.toNat t4 with e | ⟨rows, t5⟩
                · rw [hrr] at hsucc; simp at hsucc
                · rw [hrr] at hsucc
                  dsimp only at hsucc
                  rcases hrc2 : record_close len2 t5 with e | t6
                  · rw [hrc2] at hsucc; simp at hsucc
                  · rw [hrc2] at hsucc
                    dsimp only at hsucc
                    rcases hbl : (blockLoopB p dims rows t6).2.2 with e | t7
                    · rw [hbl] at hsucc; simp at hsucc
                    · obtain ⟨segs, hsegs, hslen, hshape⟩ :=
                        blockLoopB_ok_trace p dims rows t6 t7 hbl
                      have hrow := readRowsB_length dims nb2.toNat t4 rows t5 hrr
                      refine ⟨[BinEv.recOpen len, BinEv.rdInt nb2,
                          BinEv.recClose len], segs, rows, len2, ?_,
                        by simp [hsb], fun _ => ⟨len, nb2, rfl, hrow⟩,
                        hslen, hshape⟩
                      simp only [parse_binary, hsb, Bool.false_eq_true, if_false,
                        hro, hri, hrc, if_neg hnb, hro2, hrr, hrc2, hbl, hsegs]
    · -- single-block: no block-count frame, exactly one row
      simp only [parse_binary, hsb, eq_self_iff_true, if_true] at hsucc ⊢
      rcases hro2 : record_open toks with e | ⟨len2, t4⟩
      · rw [hro2] at hsucc; simp at hsucc
      · rw [hro2] at hsucc
        dsimp only at hsucc
        rcases hrr : readRowsB dims (1 : Int).toNat t4 with e | ⟨rows, t5⟩
        · rw [hrr] at hsucc; simp at hsucc
        · rw [hrr] at hsucc
          dsimp only at hsucc
          rcases hrc2 : record_close len2 t5 with e | t6
          · rw [hrc2] at hsucc; simp at hsucc
          · rw [hrc2] at hsucc
            dsimp only at hsucc
            rcases hbl : (blockLoopB p dims rows t6).2.2 with e | t7
            · rw [hbl] at hsucc; simp at hsucc
            · obtain ⟨segs, hsegs, hslen, hshape⟩ :=
                blockLoopB_ok_trace p dims rows t6 t7 hbl
              have hrow := readRowsB_length dims (1 : Int).toNat t4 rows t5 hrr
              refine ⟨[], segs, rows, len2, ?_,
                fun _ => ⟨rfl, by simpa using hrow⟩,
                by simp [hsb], hslen, hshape⟩
              simp only [parse_binary, hsb, eq_self_iff_true, if_true,
                hro2, hrr, hrc2, hbl, hsegs]
  · intro hne
    simp [record_close, hne]
  · intro hsb hne
    simp [parse_binary, hsb, record_open, readIntB, record_close, hne]

/-- Witness for C8: a concrete single-block binary stream parses with the
framed trace shape (one extents frame, one payload frame holding the
block's full 2-value payload); a record closed with 5 against leading
length 4 is a fatal error; a mismatched block-count frame aborts the
parse. -/
theorem binary_record_framing_witness :
    (∃ (hdr : List BinEv) (segs : List (List BinEv))
        (rows : List (List Int)) (a2 : Int),
        (parse_binary (mkParser true 2 [] []) 2
            [BinTok.i 8, BinTok.i 1, BinTok.i 1, BinTok.i 8,
             BinTok.i 16, BinTok.d 5, BinTok.d 6, BinTok.i 16]).trace
          = hdr ++ (BinEv.recOpen a2 :: (rows.flatten).map BinEv.rdInt
              ++ [BinEv.recClose a2]) ++ segs.flatten
        ∧ ((mkParser true 2 [] []).single_block = true →
            hdr = [] ∧ rows.length = 1)
        ∧ ((mkParser true 2 [] []).single_block = false → ∃ (a c : Int),
            hdr = [BinEv.recOpen a, BinEv.rdInt c, BinEv.recClose a]
            ∧ rows.length = c.toNat)
        ∧ segs.length = rows.length
        ∧ (∀ n, n < rows.length → ∃ (b : Int) (vs : List Val),
            segs.getD n [] = BinEv.recOpen b :: vs.map BinEv.rdVal
              ++ [BinEv.recClose b]
            ∧ vs.length = blockPayloadLength 2 (rows.getD n [])))
    ∧ record_close 4 [BinTok.i 5] = .error PErr.stream
    ∧ (parse_binary (mkParser false 2 [] []) 2
        [BinTok.i 4, BinTok.i 7, BinTok.i 9]).res = .error PErr.stream :=
  ⟨(binary_record_framing (mkParser true 2 [] []) 2
      [BinTok.i 8, BinTok.i 1, BinTok.i 1, BinTok.i 8,
       BinTok.i 16, BinTok.d 5, BinTok.d 6, BinTok.i 16] [] 4 7 9 5).1 rfl,
   (binary_record_framing (mkParser true 2 [] []) 2 [] [] 4 7 9 5).2.1 (by decide),
   (binary_record_framing (mkParser false 2 [] []) 2 [] [] 4 7 9 5).2.2 rfl (by decide)⟩

end HBTK
